import Mathlib

/-!
# arduino-connector: command handlers, topic dispatch table, sketch registration
and the hot-plug watcher

A shallow embedding of `main.go`, `handler_apt_packages.go`,
`handlers_containers.go` and `handlers_stats.go`.

* A handler is a function from the inbound payload and the outcomes of the
  library calls it makes to the ordered list of calls it performs (`Call`).
  Every library call is made at most once per invocation, so its outcome is
  one value of the `Lib` record.
* `subscribeTopic` / `subscribeTopics` return the `Subscribe` calls issued on
  the MQTT client, in order.
* The sketch registration and the watcher thread the `Status` store and
  return the ordered list of operating-system and store operations (`Op`).
-/

namespace ArduinoConnector

/-! ## Collaborator handlers -/

/-- The quote character used by the `Unmarshal '%s': %s` format strings. -/
def quote : String := String.singleton (Char.ofNat 39)

/-- Package of the apt client library; the handlers only ever fill `Name`. -/
structure Package where
  Name : String
  Status : String := ""
  Architecture : String := ""
  Version : String := ""
  deriving DecidableEq, Repr

/-- Anonymous parameter structure `runParams` of `ContainersActionEvent`. -/
structure RunParams where
  ImageName : String := ""
  ContainerName : String := ""
  ContainerId : String := ""
  RunAsDaemon : Bool := false
  Action : String := ""
  deriving DecidableEq, Repr

/-- Response structure `RunPayload` of `ContainersActionEvent`. -/
structure RunPayload where
  ImageName : String := ""
  ContainerName : String := ""
  RunAsDaemon : Bool := false
  ContainerId : String := ""
  Action : String := ""
  deriving DecidableEq, Repr

/-- Anonymous parameter structure `info` of `WiFiEvent`. -/
structure WiFiInfo where
  SSID : String := ""
  Password : String := ""
  deriving DecidableEq, Repr

/-- Wired configuration `net.IPProxyConfig`; it is declared by the network
statistics library, the handler only decodes it and passes it on. -/
structure IPProxyConfig where
  fields : List (String × String) := []
  deriving DecidableEq, Repr

/-- Payload structure `StatsPayload` of `StatsEvent`; a failed collector leaves
the value the library returned next to its error (a nil pointer or slice). -/
structure StatsPayload where
  Memory : Option String
  Disk : Option (List String)
  Network : Option String
  deriving DecidableEq, Repr

/-- Calls made by a handler, in program order: the publications on the shared
status (`Status.Error`, `Status.Info`, `Status.InfoCommandOutput`) and the
operations of the apt, docker, statistics and network libraries. -/
inductive Call where
  | Error (topic : String) (err : String)
  | Info (topic : String) (msg : String)
  | InfoCommandOutput (topic : String) (out : String) (err : Option String)
  | aptList
  | aptListUpgradable
  | aptInstall (pkgs : List Package)
  | aptUpgradeAll
  | aptUpgrade (pkgs : List Package)
  | aptRemove (pkgs : List Package)
  | dockerNewEnvClient
  | ContainerList (all : Bool)
  | ImageList
  | ImagePull (image : String)
  | ContainerCreate (image : String) (name : String)
  | ContainerStart (id : String)
  | ContainerStop (id : String)
  | memGetStats
  | diskGetStats
  | netGetNetworkStats
  | AddWirelessConnection (ssid : String) (password : String)
  | AddWiredConnection (info : IPProxyConfig)
  deriving DecidableEq, Repr

/-- Outcomes of the library calls of one handler invocation. A Go result
`(v, err)` whose value is only used when `err == nil` is an `Except`; an
error-only result is `Option String` (`none` is `nil`); the collectors of
`StatsEvent` keep both components because the value is used either way. -/
structure Lib where
  unmarshalPackages : String → Except String (List String)
  unmarshalRunParams : String → Except String RunParams
  unmarshalWiFi : String → Except String WiFiInfo
  unmarshalEth : String → Except String IPProxyConfig
  marshalAptList : List Package → List Package → Except String String
  marshalList : List String → Except String String
  marshalRun : RunPayload → Except String String
  marshalStats : StatsPayload → Except String String
  aptList : Except String (List Package)
  aptListUpgradable : Except String (List Package)
  aptInstall : String × Option String
  aptUpgradeAll : String × Option String
  aptUpgrade : String × Option String
  aptRemove : String × Option String
  dockerNewEnvClient : Option String
  ContainerList : Except String (List String)
  ImageList : Except String (List String)
  ImagePull : Option String
  ContainerCreate : Except String String
  ContainerStart : Option String
  ContainerStop : Option String
  memGetStats : Option String × Option String
  diskGetStats : Option (List String) × Option String
  netGetNetworkStats : Option String × Option String

/-- The loop `for _, p := range params.Packages` appending `&apt.Package{Name: p}`. -/
def toPackages (names : List String) : List Package :=
  names.map fun p => { Name := p }

/-- Embedding of `Status.AptListEvent`. -/
def AptListEvent (lib : Lib) (_payload : String) : List Call :=
  match lib.aptList with
  | .error err => [.aptList, .Error "/apt/list/error" ("Retrieving packages: " ++ err)]
  | .ok all =>
    match lib.aptListUpgradable with
    | .error err =>
      [.aptList, .aptListUpgradable, .Error "/apt/list/error" ("Retrieving packages: " ++ err)]
    | .ok upgradable =>
      match lib.marshalAptList all upgradable with
      | .error err =>
        [.aptList, .aptListUpgradable, .Error "/apt/list/error" ("Json marshal result: " ++ err)]
      | .ok data => [.aptList, .aptListUpgradable, .Info "/apt/list" (data ++ "\n")]

/-- Embedding of `Status.AptInstallEvent`. -/
def AptInstallEvent (lib : Lib) (payload : String) : List Call :=
  match lib.unmarshalPackages payload with
  | .error err =>
    [.Error "/apt/install/error" ("Unmarshal " ++ quote ++ payload ++ quote ++ ": " ++ err)]
  | .ok packages =>
    let toInstall := toPackages packages
    [.aptInstall toInstall, .InfoCommandOutput "/apt/install" lib.aptInstall.1 lib.aptInstall.2]

/-- Embedding of `Status.AptUpgradeEvent`. -/
def AptUpgradeEvent (lib : Lib) (payload : String) : List Call :=
  match lib.unmarshalPackages payload with
  | .error err =>
    [.Error "/apt/upgrade/error" ("Unmarshal " ++ quote ++ payload ++ quote ++ ": " ++ err)]
  | .ok packages =>
    let toUpgrade := toPackages packages
    if toUpgrade.length = 0 then
      [.aptUpgradeAll, .InfoCommandOutput "/apt/upgrade" lib.aptUpgradeAll.1 lib.aptUpgradeAll.2]
    else
      [.aptUpgrade toUpgrade, .InfoCommandOutput "/apt/upgrade" lib.aptUpgrade.1 lib.aptUpgrade.2]

/-- Embedding of `Status.AptRemoveEvent`. -/
def AptRemoveEvent (lib : Lib) (payload : String) : List Call :=
  match lib.unmarshalPackages payload with
  | .error err =>
    [.Error "/apt/remove/error" ("Unmarshal " ++ quote ++ payload ++ quote ++ ": " ++ err)]
  | .ok packages =>
    let toRemove := toPackages packages
    [.aptRemove toRemove, .InfoCommandOutput "/apt/remove" lib.aptRemove.1 lib.aptRemove.2]

/-- Embedding of `Status.ContainersPsEvent`. -/
def ContainersPsEvent (lib : Lib) (_payload : String) : List Call :=
  match lib.dockerNewEnvClient with
  | some err => [.dockerNewEnvClient, .Error "/containers/ps" ("Json marsahl result: " ++ err)]
  | none =>
    match lib.ContainerList with
    | .error err =>
      [.dockerNewEnvClient, .ContainerList true,
        .Error "/containers/ps" ("Json marshal result: " ++ err)]
    | .ok containers =>
      match lib.marshalList containers with
      | .error err =>
        [.dockerNewEnvClient, .ContainerList true,
          .Error "/containers/ps" ("Json marsahl result: " ++ err)]
      | .ok data =>
        [.dockerNewEnvClient, .ContainerList true, .Info "/containers/ps" (data ++ "\n")]

/-- Embedding of `Status.ContainersListImagesEvent`. -/
def ContainersListImagesEvent (lib : Lib) (_payload : String) : List Call :=
  match lib.dockerNewEnvClient with
  | some err => [.dockerNewEnvClient, .Error "/containers/images" ("images result: " ++ err)]
  | none =>
    match lib.ImageList with
    | .error err =>
      [.dockerNewEnvClient, .ImageList, .Error "/containers/images" ("images result: " ++ err)]
    | .ok images =>
      match lib.marshalList images with
      | .error err =>
        [.dockerNewEnvClient, .ImageList,
          .Error "/containers/images" ("Json marsahl result: " ++ err)]
      | .ok data => [.dockerNewEnvClient, .ImageList, .Info "/containers/images" (data ++ "\n")]

/-- The tail of `ContainersActionEvent` after the action branches: marshal
`runResponse` and publish it. -/
def sendRunResponse (lib : Lib) (runResponse : RunPayload) : List Call :=
  match lib.marshalRun runResponse with
  | .error err => [.Error "/containers/action" ("Json marshal result: " ++ err)]
  | .ok data => [.Info "/containers/action" (data ++ "\n")]

/-- Embedding of `Status.ContainersActionEvent`. -/
def ContainersActionEvent (lib : Lib) (payload : String) : List Call :=
  match lib.unmarshalRunParams payload with
  | .error err => [.Error "/containers/action" ("unmarshal " ++ payload ++ ": " ++ err)]
  | .ok runParams =>
    match lib.dockerNewEnvClient with
    | some err => [.dockerNewEnvClient, .Error "/containers/action" ("run result: " ++ err)]
    | none =>
      if runParams.Action = "start" then
        match lib.ImagePull with
        | some err =>
          [.dockerNewEnvClient, .ImagePull runParams.ImageName,
            .Error "/containers/action" ("image pull result: " ++ err)]
        | none =>
          match lib.ContainerCreate with
          | .error err =>
            [.dockerNewEnvClient, .ImagePull runParams.ImageName,
              .ContainerCreate runParams.ImageName runParams.ContainerName,
              .Error "/containers/action" ("container create result: " ++ err)]
          | .ok respID =>
            match lib.ContainerStart with
            | some err =>
              [.dockerNewEnvClient, .ImagePull runParams.ImageName,
                .ContainerCreate runParams.ImageName runParams.ContainerName,
                .ContainerStart respID,
                .Error "/containers/action" ("container start result: " ++ err)]
            | none =>
              [.dockerNewEnvClient, .ImagePull runParams.ImageName,
                .ContainerCreate runParams.ImageName runParams.ContainerName,
                .ContainerStart respID]
              ++ sendRunResponse lib
                  { ImageName := runParams.ImageName
                    ContainerName := runParams.ContainerName
                    RunAsDaemon := runParams.RunAsDaemon
                    ContainerId := respID
                    Action := runParams.Action }
      else if runParams.Action = "stop" then
        match lib.ContainerStop with
        | some err =>
          [.dockerNewEnvClient, .ContainerStop runParams.ContainerId,
            .Error "/containers/action" ("container action result: " ++ err)]
        | none =>
          [.dockerNewEnvClient, .ContainerStop runParams.ContainerId]
          ++ sendRunResponse lib
              { ImageName := runParams.ImageName
                ContainerName := runParams.ContainerName
                RunAsDaemon := runParams.RunAsDaemon
                ContainerId := ""
                Action := runParams.Action }
      else
        [.dockerNewEnvClient] ++ sendRunResponse lib {}

/-- Embedding of `Status.WiFiEvent`. -/
def WiFiEvent (lib : Lib) (payload : String) : List Call :=
  match lib.unmarshalWiFi payload with
  | .error err => [.Error "/wifi" ("unmarshal " ++ payload ++ ": " ++ err)]
  | .ok info => [.AddWirelessConnection info.SSID info.Password]

/-- Embedding of `Status.EthEvent`. -/
def EthEvent (lib : Lib) (payload : String) : List Call :=
  match lib.unmarshalEth payload with
  | .error err => [.Error "/ethernet" ("unmarshal " ++ payload ++ ": " ++ err)]
  | .ok info => [.AddWiredConnection info]

/-- One collector step of `StatsEvent`: the call, then a failure publication
when the collector returned an error; there is no `return` after it. -/
def reportCollector (call : Call) (what : String) (err : Option String) : List Call :=
  match err with
  | some e => [call, .Error "/stats" ("Retrieving " ++ what ++ " stats: " ++ e)]
  | none => [call]

/-- Embedding of `Status.StatsEvent`. -/
def StatsEvent (lib : Lib) (_payload : String) : List Call :=
  reportCollector .memGetStats "memory" lib.memGetStats.2
  ++ reportCollector .diskGetStats "disk" lib.diskGetStats.2
  ++ reportCollector .netGetNetworkStats "network" lib.netGetNetworkStats.2
  ++ (match lib.marshalStats
        { Memory := lib.memGetStats.1, Disk := lib.diskGetStats.1
          Network := lib.netGetNetworkStats.1 } with
      | .error err => [.Error "/stats" ("Json marsahl result: " ++ err)]
      | .ok data => [.Info "/stats" (data ++ "\n")])

/-- A failure publication: a call to `Status.Error`. -/
def Call.isError : Call → Bool
  | .Error _ _ => true
  | _ => false

/-- A success publication: a call to `Status.Info`. -/
def Call.isInfo : Call → Bool
  | .Info _ _ => true
  | _ => false

/-- Any publication on the shared status. -/
def Call.isPublication : Call → Bool
  | .Error _ _ => true
  | .Info _ _ => true
  | .InfoCommandOutput _ _ _ => true
  | _ => false

/-- An apt, docker, statistics or network-configuration operation. -/
def Call.isOperation (c : Call) : Bool := !c.isPublication

/-- Topic handed to the publication, if the call is one. -/
def Call.topic? : Call → Option String
  | .Error t _ => some t
  | .Info t _ => some t
  | .InfoCommandOutput t _ _ => some t
  | _ => none

/-! ## Topic dispatch table (`main.go`) -/

/-- Handle of an `mqtt.Client`. -/
structure Client where
  handle : Nat
  deriving DecidableEq, Repr

/-- An inbound `mqtt.Message`. -/
structure Message where
  Topic : String
  Payload : String
  deriving DecidableEq, Repr

/-- Pointer to the shared `Status`; Go's `nil` is `none` of `Option StatusPtr`. -/
structure StatusPtr where
  addr : Nat
  deriving DecidableEq, Repr

/-- The handler methods of `*Status` that `subscribeTopics` binds. -/
inductive Method where
  | StatusEvent | UploadEvent | SketchEvent | UpdateEvent | StatsEvent | WiFiEvent | EthEvent
  | AptGetEvent | AptListEvent | AptInstallEvent | AptUpdateEvent | AptUpgradeEvent
  | AptRemoveEvent
  | AptRepositoryListEvent | AptRepositoryAddEvent | AptRepositoryRemoveEvent
  | AptRepositoryEditEvent
  | ContainersPsEvent | ContainersListImagesEvent | ContainersActionEvent
  | ContainersRenameEvent
  deriving DecidableEq, Repr

/-- A method value such as `status.StatusEvent`: the method with its receiver. -/
structure MethodValue where
  recv : StatusPtr
  method : Method
  deriving DecidableEq, Repr

/-- The `mqtt.MessageHandler` that `subscribeTopic` hands to `Subscribe`: the
given handler itself, or the closure `debugHandler` around it. -/
inductive Callback (H : Type) where
  | handler (h : H)
  | debugHandler (h : H)
  deriving DecidableEq, Repr

/-- What running a callback does, in order. -/
inductive Step (H : Type) where
  | Println (args : List String)
  | call (h : H) (client : Client) (msg : Message)
  deriving DecidableEq, Repr

/-- Body of the installed callback: `debugHandler` prints the message and then
calls `handler(client, msg)`; the plain callback is the handler. -/
def Callback.run {H : Type} : Callback H → Client → Message → List (Step H)
  | .handler h, client, msg => [.call h client msg]
  | .debugHandler h, client, msg =>
    [.Println ["MQTT IN:", msg.Topic, msg.Payload], .call h client msg]

/-- One call `mqttClient.Subscribe(topic, qos, callback)`. -/
structure Subscribe (H : Type) where
  client : Client
  topic : String
  qos : Nat
  callback : Callback H
  deriving DecidableEq, Repr

/-- Embedding of `subscribeTopic`; the global `debugMqtt` is a parameter. -/
def subscribeTopic {H : Type} (debugMqtt : Bool) (mqttClient : Client) (id topic : String)
    (handler : H) : Subscribe H :=
  if debugMqtt then
    { client := mqttClient, topic := "$aws/things/" ++ id ++ topic, qos := 1
      callback := .debugHandler handler }
  else
    { client := mqttClient, topic := "$aws/things/" ++ id ++ topic, qos := 1
      callback := .handler handler }

/-- Embedding of `subscribeTopics`: the `Subscribe` calls it issues, in order. -/
def subscribeTopics (debugMqtt : Bool) (mqttClient : Client) (id : String)
    (status : Option StatusPtr) : List (Subscribe MethodValue) :=
  match status with
  | none => []
  | some status =>
    [ subscribeTopic debugMqtt mqttClient id "/status/post" ⟨status, .StatusEvent⟩,
      subscribeTopic debugMqtt mqttClient id "/upload/post" ⟨status, .UploadEvent⟩,
      subscribeTopic debugMqtt mqttClient id "/sketch/post" ⟨status, .SketchEvent⟩,
      subscribeTopic debugMqtt mqttClient id "/update/post" ⟨status, .UpdateEvent⟩,
      subscribeTopic debugMqtt mqttClient id "/stats/post" ⟨status, .StatsEvent⟩,
      subscribeTopic debugMqtt mqttClient id "/wifi/post" ⟨status, .WiFiEvent⟩,
      subscribeTopic debugMqtt mqttClient id "/ethernet/post" ⟨status, .EthEvent⟩,
      subscribeTopic debugMqtt mqttClient id "/apt/get/post" ⟨status, .AptGetEvent⟩,
      subscribeTopic debugMqtt mqttClient id "/apt/list/post" ⟨status, .AptListEvent⟩,
      subscribeTopic debugMqtt mqttClient id "/apt/install/post" ⟨status, .AptInstallEvent⟩,
      subscribeTopic debugMqtt mqttClient id "/apt/update/post" ⟨status, .AptUpdateEvent⟩,
      subscribeTopic debugMqtt mqttClient id "/apt/upgrade/post" ⟨status, .AptUpgradeEvent⟩,
      subscribeTopic debugMqtt mqttClient id "/apt/remove/post" ⟨status, .AptRemoveEvent⟩,
      subscribeTopic debugMqtt mqttClient id "/apt/repos/list/post"
        ⟨status, .AptRepositoryListEvent⟩,
      subscribeTopic debugMqtt mqttClient id "/apt/repos/add/post"
        ⟨status, .AptRepositoryAddEvent⟩,
      subscribeTopic debugMqtt mqttClient id "/apt/repos/remove/post"
        ⟨status, .AptRepositoryRemoveEvent⟩,
      subscribeTopic debugMqtt mqttClient id "/apt/repos/edit/post"
        ⟨status, .AptRepositoryEditEvent⟩,
      subscribeTopic debugMqtt mqttClient id "/containers/ps/post" ⟨status, .ContainersPsEvent⟩,
      subscribeTopic debugMqtt mqttClient id "/containers/images/post"
        ⟨status, .ContainersListImagesEvent⟩,
      subscribeTopic debugMqtt mqttClient id "/containers/action/post"
        ⟨status, .ContainersActionEvent⟩,
      subscribeTopic debugMqtt mqttClient id "/containers/rename/post"
        ⟨status, .ContainersRenameEvent⟩ ]

/-- The options `setupMQTTConnection` builds with `mqtt.NewClientOptions()`;
durations are in seconds. -/
structure ClientOptions where
  ClientID : String
  MaxReconnectInterval : Nat
  ConnectTimeout : Nat
  AutoReconnect : Bool
  OnConnect : Client → List (Subscribe MethodValue)
  ServerName : String
  Servers : List String

/-- Outcomes of the TLS and MQTT library calls of `setupMQTTConnection`. -/
structure MqttLib where
  LoadX509KeyPair : String → String → Option String
  NewClient : ClientOptions → Client
  Connect : Client → Option String

/-- Embedding of `setupMQTTConnection`: the error, or the connected client
together with the options it was created from. -/
def setupMQTTConnection (debugMqtt : Bool) (lib : MqttLib) (cert key id url : String)
    (status : Option StatusPtr) : Except String (Client × ClientOptions) :=
  match lib.LoadX509KeyPair cert key with
  | some err => .error ("read certificate: " ++ err)
  | none =>
    let opts : ClientOptions :=
      { ClientID := id
        MaxReconnectInterval := 20
        ConnectTimeout := 30
        AutoReconnect := true
        OnConnect := fun c => subscribeTopics debugMqtt c id status
        ServerName := url
        Servers := ["tcps://" ++ url ++ ":" ++ toString 8883 ++ "/mqtt"] }
    let mqttClient := lib.NewClient opts
    match lib.Connect mqttClient with
    | some err => .error ("connect to mqtt: " ++ err)
    | none => .ok (mqttClient, opts)

/-- The dispatch table as the specification names it: topic suffix and handler,
in subscription order. -/
def dispatchTable : List (String × Method) :=
  [ ("/status/post", .StatusEvent), ("/upload/post", .UploadEvent),
    ("/sketch/post", .SketchEvent), ("/update/post", .UpdateEvent),
    ("/stats/post", .StatsEvent), ("/wifi/post", .WiFiEvent),
    ("/ethernet/post", .EthEvent), ("/apt/get/post", .AptGetEvent),
    ("/apt/list/post", .AptListEvent), ("/apt/install/post", .AptInstallEvent),
    ("/apt/update/post", .AptUpdateEvent), ("/apt/upgrade/post", .AptUpgradeEvent),
    ("/apt/remove/post", .AptRemoveEvent),
    ("/apt/repos/list/post", .AptRepositoryListEvent),
    ("/apt/repos/add/post", .AptRepositoryAddEvent),
    ("/apt/repos/remove/post", .AptRepositoryRemoveEvent),
    ("/apt/repos/edit/post", .AptRepositoryEditEvent),
    ("/containers/ps/post", .ContainersPsEvent),
    ("/containers/images/post", .ContainersListImagesEvent),
    ("/containers/action/post", .ContainersActionEvent),
    ("/containers/rename/post", .ContainersRenameEvent) ]

/-! ## Status store, sketch registration and the hot-plug watcher (`main.go`) -/

/-- The fields of `SketchStatus` that `addFileToSketchDB` fills. -/
structure SketchStatus where
  Name : String
  ID : String
  PID : Int
  Status : String
  deriving DecidableEq, Repr

/-- Go map assignment `m[key] = value` on a map kept as a list of entries:
an entry under the key is replaced in place, otherwise one is added. -/
def mapSet {V : Type} (m : List (String × V)) (key : String) (value : V) : List (String × V) :=
  match m with
  | [] => [(key, value)]
  | (k, v) :: rest => if k = key then (key, value) :: rest else (k, v) :: mapSet rest key value

/-- Go map lookup `v, ok := m[key]`. -/
def mapGet {V : Type} (m : List (String × V)) (key : String) : Option V :=
  match m with
  | [] => none
  | (k, v) :: rest => if k = key then some v else mapGet rest key

/-- The shared status as far as `main.go` uses it: the device identifier, the
cloud client and the sketch map `Sketches`. -/
structure Status where
  id : String
  mqttClient : Option Client
  Sketches : List (String × SketchStatus)
  deriving DecidableEq, Repr

/-- Modelled from the spec: `Status.Set` of the Status Store (`status.go` is not
among the sources), the store operation `set(id, record)` that puts the record
in the mapping from sketch identifier to record under the given key. -/
def Status.Set (status : Status) (name : String) (sketch : SketchStatus) : Status :=
  { status with Sketches := mapSet status.Sketches name sketch }

/-- Result of `os.Stat` and entry of `ioutil.ReadDir`: an `os.FileInfo`. -/
structure FileInfo where
  Name : String
  IsDir : Bool
  deriving DecidableEq, Repr

/-- An `fsnotify.Event`: the file name and the operation bit mask. -/
structure Event where
  Name : String
  Op : Nat
  deriving DecidableEq, Repr

/-- The bit `fsnotify.Create` (`1 << iota` with `iota = 0`). -/
def fsnotifyCreate : Nat := 1

/-- The duration `time.Second` in nanoseconds. -/
def Second : Nat := 1000000000

/-- Operations performed by the registration and watcher code, in program
order. -/
inductive Op where
  | LogEvent (event : Event)
  | Println (line : String)
  | Sleep (nanoseconds : Nat)
  | applyAction (sketch : SketchStatus) (action : String)
  | Rename (oldpath : String) (newpath : String)
  | ReadFile (path : String)
  | WriteFile (path : String) (data : List UInt8) (perm : Nat)
  | Remove (path : String)
  | Chmod (path : String) (mode : Nat)
  | Stat (path : String)
  | getSketchIDFromDB (name : String)
  | Set (key : String) (sketch : SketchStatus)
  | Publish
  deriving DecidableEq, Repr

/-- Outcomes of the operating-system calls and of the repository functions
that are called but not defined in `main.go` (`getSketchIDFromDB`,
`applyAction`), while one event is handled. `applyAction` works on the record
through its pointer, so it returns the status it leaves behind. -/
structure OS where
  getSketchIDFromDB : String → Except String String
  applyAction : SketchStatus → String → Status → Status × Option String
  Join : String → String → String
  Rename : String → String → Option String
  ReadFile : String → Except String (List UInt8)
  WriteFile : String → List UInt8 → Nat → Option String
  Remove : String → Option String
  Chmod : String → Nat → Option String
  Stat : String → Except String FileInfo

/-- Embedding of `addFileToSketchDB`: the new record, the status after
`status.Set(id, &s)` and the operations performed. -/
def addFileToSketchDB (os : OS) (file : FileInfo) (status : Status) :
    SketchStatus × Status × List Op :=
  let id :=
    match os.getSketchIDFromDB file.Name with
    | .ok id => id
    | .error _ => file.Name
  let s : SketchStatus := { ID := id, PID := 0, Name := file.Name, Status := "STOPPED" }
  (s, status.Set id s,
    [.getSketchIDFromDB file.Name, .Println ("Getting sketch from " ++ id ++ " " ++ file.Name),
      .Set id s, .Publish])

/-- The boot-time scan in `program.run`: the loop over the entries returned by
`ioutil.ReadDir(sketchFolder)`, skipped when `ReadDir` failed. -/
def bootScan (os : OS) (files : Except String (List FileInfo)) (status : Status) :
    Status × List Op :=
  match files with
  | .error _ => (status, [])
  | .ok files =>
    files.foldl
      (fun acc file =>
        if file.IsDir then acc
        else
          let r := addFileToSketchDB os file acc.1
          (r.2.1, acc.2 ++ r.2.2))
      (status, [])

/-- Embedding of `copyFileAndRemoveOriginal`: the returned error and the
operations performed. The result of `os.Remove` is dropped; the `err` tested
after it is still the one of `ioutil.WriteFile`, which is nil there. -/
def copyFileAndRemoveOriginal (os : OS) (src dst : String) : Option String × List Op :=
  match os.ReadFile src with
  | .error err => (some err, [.ReadFile src])
  | .ok data =>
    match os.WriteFile dst data 0o644 with
    | some err => (some err, [.ReadFile src, .WriteFile dst data 0o644])
    | none => (none, [.ReadFile src, .WriteFile dst data 0o644, .Remove src])

/-- The block `if sketch, ok := status.Sketches["sketchLoadedThroughUSB"]; ok`
of the watcher: the status afterwards and the operations performed. The error
of the STOP is assigned to `err` and never read. -/
def stopExisting (os : OS) (status : Status) : Status × List Op :=
  match mapGet status.Sketches "sketchLoadedThroughUSB" with
  | some sketch => ((os.applyAction sketch "STOP" status).1, [.applyAction sketch "STOP"])
  | none => (status, [])

/-- The move of the dropped file: `os.Rename`, and on its failure
`copyFileAndRemoveOriginal`; the error left in `err` and the operations. -/
def moveSketch (os : OS) (oldpath newpath : String) : Option String × List Op :=
  match os.Rename oldpath newpath with
  | none => (none, [.Rename oldpath newpath])
  | some _ =>
    let r := copyFileAndRemoveOriginal os oldpath newpath
    (r.1, .Rename oldpath newpath :: r.2)

/-- One `case event := <-watcher.Events` of the loop in
`addWatcherForManuallyAddedSketches`: the status afterwards and the operations
performed. A `break` leaves the `select`, not the `for`. -/
def handleEvent (os : OS) (folderDest : String) (status : Status) (event : Event) :
    Status × List Op :=
  if event.Op &&& fsnotifyCreate = fsnotifyCreate then
    let filename := os.Join folderDest "sketchLoadedThroughUSB"
    let stopped := stopExisting os status
    let moved := moveSketch os event.Name filename
    match moved.1 with
    | some _ =>
      (stopped.1, [.LogEvent event, .Sleep (2 * Second)] ++ stopped.2 ++ moved.2)
    | none =>
      match os.Stat filename with
      | .error err =>
        (stopped.1,
          [.LogEvent event, .Sleep (2 * Second)] ++ stopped.2 ++ moved.2
            ++ [.Chmod filename 0o700, .Println "Moving new sketch to sketches folder",
                .Stat filename, .Println ("Got error:" ++ err)])
      | .ok fileInfo =>
        let r := addFileToSketchDB os fileInfo stopped.1
        ((os.applyAction r.1 "START" r.2.1).1,
          [.LogEvent event, .Sleep (2 * Second)] ++ stopped.2 ++ moved.2
            ++ [.Chmod filename 0o700, .Println "Moving new sketch to sketches folder",
                .Stat filename]
            ++ r.2.2 ++ [.applyAction r.1 "START"])
  else
    (status, [.LogEvent event])

/-- What the watcher goroutine receives: an event or an error. -/
inductive WatcherMsg where
  | event (e : Event)
  | error (err : String)
  deriving DecidableEq, Repr

/-- The `for { select { ... } }` loop of the watcher goroutine over the
messages it receives, each with the outcomes of the calls made while it is
handled. -/
def watcherLoop (folderDest : String) (status : Status) :
    List (OS × WatcherMsg) → Status × List Op
  | [] => (status, [])
  | (os, .event e) :: rest =>
    let r := handleEvent os folderDest status e
    let r2 := watcherLoop folderDest r.1 rest
    (r2.1, r.2 ++ r2.2)
  | (_, .error err) :: rest =>
    let r2 := watcherLoop folderDest status rest
    (r2.1, .Println ("error: " ++ err) :: r2.2)

/-- The record invariant of the specification: RUNNING iff the process
identifier is non-zero. -/
def SketchStatus.invariant (s : SketchStatus) : Prop :=
  s.Status = "RUNNING" ↔ s.PID ≠ 0

/-- The records registered by a run: the arguments of its `Status.Set` calls. -/
def registered : List Op → List SketchStatus
  | [] => []
  | .Set _ s :: rest => s :: registered rest
  | _ :: rest => registered rest

/-! ## Concrete environments used to evaluate the code -/

/-- Exactly one publication in total: one `Status.Info` or one `Status.Error`. -/
def OneShot (calls : List Call) : Prop :=
  calls.countP Call.isError + calls.countP Call.isInfo = 1

instance (calls : List Call) : Decidable (OneShot calls) := by
  unfold OneShot; infer_instance

/-- The number of collectors of `StatsEvent` that returned an error. -/
def failedCollectors (lib : Lib) : Nat :=
  (if lib.memGetStats.2.isSome then 1 else 0)
  + (if lib.diskGetStats.2.isSome then 1 else 0)
  + (if lib.netGetNetworkStats.2.isSome then 1 else 0)

/-- A device on which no payload parses and every library call fails. -/
def failingLib : Lib where
  unmarshalPackages := fun _ => .error "invalid character"
  unmarshalRunParams := fun _ => .error "invalid character"
  unmarshalWiFi := fun _ => .error "invalid character"
  unmarshalEth := fun _ => .error "invalid character"
  marshalAptList := fun _ _ => .error "unsupported value"
  marshalList := fun _ => .error "unsupported value"
  marshalRun := fun _ => .error "unsupported value"
  marshalStats := fun _ => .error "unsupported value"
  aptList := .error "exit status 1"
  aptListUpgradable := .error "exit status 1"
  aptInstall := ("", some "exit status 100")
  aptUpgradeAll := ("", some "exit status 100")
  aptUpgrade := ("", some "exit status 100")
  aptRemove := ("", some "exit status 100")
  dockerNewEnvClient := some "unable to parse docker host"
  ContainerList := .error "Cannot connect to the Docker daemon"
  ImageList := .error "Cannot connect to the Docker daemon"
  ImagePull := some "Cannot connect to the Docker daemon"
  ContainerCreate := .error "Cannot connect to the Docker daemon"
  ContainerStart := some "Cannot connect to the Docker daemon"
  ContainerStop := some "Cannot connect to the Docker daemon"
  memGetStats := (none, some "open /proc/meminfo: no such file")
  diskGetStats := (none, some "open /proc/mounts: no such file")
  netGetNetworkStats := (none, some "NetworkManager is not running")

/-- A device on which payloads parse, the docker daemon is down and only the
memory collector fails. -/
def dockerDownLib : Lib where
  unmarshalPackages := fun _ => .ok ["vim"]
  unmarshalRunParams := fun _ => .ok { Action := "start", ImageName := "alpine" }
  unmarshalWiFi := fun _ => .ok { SSID := "home", Password := "secret" }
  unmarshalEth := fun _ => .ok {}
  marshalAptList := fun _ _ => .ok "{}"
  marshalList := fun _ => .ok "[]"
  marshalRun := fun _ => .ok "{}"
  marshalStats := fun _ => .ok "{}"
  aptList := .ok []
  aptListUpgradable := .ok []
  aptInstall := ("done", none)
  aptUpgradeAll := ("done", none)
  aptUpgrade := ("done", none)
  aptRemove := ("done", none)
  dockerNewEnvClient := none
  ContainerList := .error "Cannot connect to the Docker daemon"
  ImageList := .error "Cannot connect to the Docker daemon"
  ImagePull := some "Cannot connect to the Docker daemon"
  ContainerCreate := .error "Cannot connect to the Docker daemon"
  ContainerStart := some "Cannot connect to the Docker daemon"
  ContainerStop := some "Cannot connect to the Docker daemon"
  memGetStats := (none, some "open /proc/meminfo: no such file")
  diskGetStats := (some ["/dev/root"], none)
  netGetNetworkStats := (some "eth0", none)

/-- The handlers of the sources that are subscribed at `<suffix>/post`, each
with its suffix. -/
def postHandlers : List (String × (Lib → String → List Call)) :=
  [ ("/apt/list", AptListEvent), ("/apt/install", AptInstallEvent),
    ("/apt/upgrade", AptUpgradeEvent), ("/apt/remove", AptRemoveEvent),
    ("/containers/ps", ContainersPsEvent), ("/containers/images", ContainersListImagesEvent),
    ("/containers/action", ContainersActionEvent), ("/stats", StatsEvent),
    ("/wifi", WiFiEvent), ("/ethernet", EthEvent) ]

/-- The publication convention of the specification for a handler subscribed
at `<suffix>/post`: every `Status.Error` goes to `<suffix>/error`, every
`Status.Info` to `<suffix>`. -/
def FollowsConvention (suffix : String) (calls : List Call) : Prop :=
  ∀ c ∈ calls, (c.isError = true → c.topic? = some (suffix ++ "/error"))
    ∧ (c.isInfo = true → c.topic? = some suffix)

/-- A malformed message is answered by one failure publication and nothing
else: no success publication and no library operation. -/
def OnlyOneFailure (calls : List Call) : Prop :=
  calls.countP Call.isError = 1 ∧ calls.countP Call.isInfo = 0
    ∧ calls.countP (fun c => c.isPublication && !c.isError) = 0
    ∧ calls.countP Call.isOperation = 0

/-- An MQTT library whose certificate load and connect succeed. -/
def okMqtt : MqttLib where
  LoadX509KeyPair := fun _ _ => none
  NewClient := fun _ => ⟨1⟩
  Connect := fun _ => none

/-- A status store without sketches and without cloud client. -/
def emptyStatus : Status := { id := "dev", mqttClient := none, Sketches := [] }

/-- A device on which every file operation succeeds, the identifier lookup
finds nothing and `applyAction` leaves the status as it is. -/
def okOS : OS where
  getSketchIDFromDB := fun _ => .error "sketch not found"
  applyAction := fun _ _ status => (status, none)
  Join := fun dir name => dir ++ "/" ++ name
  Rename := fun _ _ => none
  ReadFile := fun _ => .ok []
  WriteFile := fun _ _ _ => none
  Remove := fun _ => none
  Chmod := fun _ _ => none
  Stat := fun _ => .ok { Name := "sketchLoadedThroughUSB", IsDir := false }

/-- A device like `okOS` whose identifier lookup knows every file name. -/
def lookupOS : OS := { okOS with getSketchIDFromDB := fun name => .ok ("id-" ++ name) }

/-- Whether a step of a callback is the call of a handler. -/
def Step.isCall {H : Type} : Step H → Bool
  | .call _ _ _ => true
  | .Println _ => false

/-- The subscriptions issued over `n` successive (re)connects of the client:
the library runs the on-connect handler once per connect. -/
def reconnects (opts : ClientOptions) (c : Client) (n : Nat) : List (List (Subscribe MethodValue)) :=
  List.replicate n (opts.OnConnect c)

/-- The options `setupMQTTConnection` builds for the device `dev` on the broker
host `broker` with the status at address 7, outside the debug mode. -/
def devOptions : ClientOptions where
  ClientID := "dev"
  MaxReconnectInterval := 20
  ConnectTimeout := 30
  AutoReconnect := true
  OnConnect := fun c => subscribeTopics false c "dev" (some ⟨7⟩)
  ServerName := "broker"
  Servers := ["tcps://broker:8883/mqtt"]

/-- A device like `okOS` on which the rename fails, as across file systems, so
that the watcher falls back to the copy. -/
def crossDeviceOS : OS := { okOS with Rename := fun _ _ => some "invalid cross-device link" }

/-- An `Op` that is part of moving the dropped file from `oldpath` to
`newpath`: the rename, or a step of the fallback copy. -/
def Op.isMoveOf (oldpath newpath : String) : Op → Bool
  | .Rename o n => o = oldpath && n = newpath
  | .ReadFile p => p = oldpath
  | .WriteFile p _ _ => p = newpath
  | .Remove p => p = oldpath
  | _ => false

/-- An `Op` that applies STOP to a sketch. -/
def Op.isStop : Op → Bool
  | .applyAction _ action => action = "STOP"
  | _ => false

/-- Every publication among the calls is given the topic `topic`. -/
def publishesOnlyOn (topic : String) (calls : List Call) : Bool :=
  calls.all fun c => c.topic? == none || c.topic? == some topic

/-! ## Further embeddings from `main.go`: `appendIfUnique`, the heartbeat, the
file contents behind the watcher operations, direct accesses to the status -/

/-- The loop `for _, el := range slice` of `appendIfUnique`: whether it reaches
`return slice`. -/
def appendIfUnique.found : List String → String → Bool
  | [], _ => false
  | el :: rest, element => if el = element then true else appendIfUnique.found rest element

/-- Embedding of `appendIfUnique`. -/
def appendIfUnique (slice : List String) (element : String) : List String :=
  if appendIfUnique.found slice element then slice else slice ++ [element]

/-- How a piece of `program.run` ends: it returns a value to its caller, or it
ends the process (`os.Exit`, `log.Fatal`). -/
inductive Control (α : Type) where
  | returned (value : α)
  | exited (code : Nat)
  deriving DecidableEq, Repr

/-- The closure handed to `newHeartbeat` in `program.run`; `info` is the result
of `status.Info`, which is defined outside the sources. The error is `nil`
(`none`) or `fmt.Errorf("Publish failed")`. -/
def heartbeatCallback (info : String → String → Bool) (payload : String) :
    Control (Option String) × List Call :=
  if !info "/heartbeat" payload then
    (.returned (some "Publish failed"), [.Info "/heartbeat" payload])
  else
    (.returned none, [.Info "/heartbeat" payload])

/-- The block `// start heartbeat` of `program.run`: the callback given to
`newHeartbeat`, or `none` when `newHeartbeat` is not called. -/
def startHeartbeat (status : Status) (info : String → String → Bool) :
    Option (String → Control (Option String) × List Call) :=
  if status.mqttClient ≠ none then some (heartbeatCallback info) else none

/-- Contents of the files by path. -/
abbrev Files := List (String × List UInt8)

/-- The files without the one at `path`. -/
def removeFile (files : Files) (path : String) : Files :=
  files.filter fun e => e.1 != path

/-- The files after one operation whose outcome is the one `os` reports: a
rename, write or remove that reported no error has taken place, one that
reported an error has changed nothing, and the other operations do not change
file contents. -/
def Op.apply (os : OS) (files : Files) : Op → Files
  | .Rename oldpath newpath =>
    match os.Rename oldpath newpath, mapGet files oldpath with
    | none, some data => mapSet (removeFile files oldpath) newpath data
    | _, _ => files
  | .WriteFile path data perm =>
    match os.WriteFile path data perm with
    | none => mapSet files path data
    | some _ => files
  | .Remove path =>
    match os.Remove path with
    | none => removeFile files path
    | some _ => files
  | _ => files

/-- The files after a sequence of operations. -/
def runOps (os : OS) (files : Files) (ops : List Op) : Files :=
  ops.foldl (Op.apply os) files

/-- Embedding of `autospawnSketchIfMatchesName`; a record in the map is never a
nil pointer, `addFileToSketchDB` stores `&s`. -/
def autospawnSketchIfMatchesName (os : OS) (name : String) (status : Status) :
    Status × List Op :=
  match mapGet status.Sketches name with
  | some sketch => ((os.applyAction sketch "START" status).1, [.applyAction sketch "START"])
  | none => (status, [])

/-- How a statement of `main.go` reaches the shared `*Status`: through one of
its methods, by reading or writing one of its fields in place, or by handing
the pointer to another function. -/
inductive Access where
  | method (name : String)
  | fieldRead (field : String)
  | fieldWrite (field : String)
  | passedTo (callee : String)
  deriving DecidableEq, Repr

/-- An access that goes through a method of the status or hands it on. -/
def Access.throughInterface : Access → Bool
  | .method _ => true
  | .passedTo _ => true
  | _ => false

/-- The accesses of `addFileToSketchDB`: `status.Set(id, &s)` and
`status.Publish()`. -/
def addFileToSketchDB.accesses : List Access := [.method "Set", .method "Publish"]

/-- The accesses of `autospawnSketchIfMatchesName`: `status.Sketches[name]` in
the condition and, when the record is there, again in the argument of
`applyAction`. -/
def autospawnSketchIfMatchesName.accesses (name : String) (status : Status) : List Access :=
  match mapGet status.Sketches name with
  | some _ => [.fieldRead "Sketches", .fieldRead "Sketches", .passedTo "applyAction"]
  | none => [.fieldRead "Sketches"]

/-- The accesses of one `case event := <-watcher.Events`, along the control
flow of `handleEvent`: `status.Sketches["sketchLoadedThroughUSB"]`, the STOP,
and after the move and the stat `addFileToSketchDB` and the START. -/
def handleEvent.accesses (os : OS) (folderDest : String) (status : Status) (event : Event) :
    List Access :=
  if event.Op &&& fsnotifyCreate = fsnotifyCreate then
    let filename := os.Join folderDest "sketchLoadedThroughUSB"
    let stop : List Access :=
      match mapGet status.Sketches "sketchLoadedThroughUSB" with
      | some _ => [.fieldRead "Sketches", .passedTo "applyAction"]
      | none => [.fieldRead "Sketches"]
    match (moveSketch os event.Name filename).1 with
    | some _ => stop
    | none =>
      match os.Stat filename with
      | .error _ => stop
      | .ok _ => stop ++ [.passedTo "addFileToSketchDB"] ++ addFileToSketchDB.accesses
          ++ [.passedTo "applyAction"]
  else []

/-- A docker operation on an image or a container. -/
def Call.isContainerOperation : Call → Bool
  | .ImagePull _ => true
  | .ContainerCreate _ _ => true
  | .ContainerStart _ => true
  | .ContainerStop _ => true
  | _ => false

/-- The call `apt.UpgradeAll()`. -/
def Call.isUpgradeAll : Call → Bool
  | .aptUpgradeAll => true
  | _ => false

/-- A call `apt.Upgrade(...)`. -/
def Call.isUpgrade : Call → Bool
  | .aptUpgrade _ => true
  | _ => false

/-- A device like `okOS` on which STOP fails. -/
def stopFailsOS : OS :=
  { okOS with
    applyAction := fun _ action status =>
      (status, if action = "STOP" then some "no such process" else none) }

/-- A device like `okOS` on which the stat of the moved file fails. -/
def statFailsOS : OS := { okOS with Stat := fun _ => .error "no such file or directory" }

/-- A device on which the dropped file can be read and copied but neither
renamed nor removed, as in a sticky directory owned by someone else. -/
def stickyOS : OS :=
  { okOS with
    Rename := fun _ _ => some "operation not permitted"
    ReadFile := fun _ => .ok [1, 2, 3]
    Remove := fun _ => some "operation not permitted" }

/-- A device on which the dropped file can neither be renamed nor read. -/
def unreadableOS : OS :=
  { okOS with
    Rename := fun _ _ => some "invalid cross-device link"
    ReadFile := fun _ => .error "permission denied" }

/-- The drop directory holding `foo.bin` with three bytes. -/
def droppedFiles : Files := [("/tmp/sketches/foo.bin", [1, 2, 3])]

/-- A store whose hot-plug sketch was registered with the file name as key and
is running. -/
def runningStatus : Status :=
  { id := "dev", mqttClient := some ⟨1⟩
    Sketches := [("sketchLoadedThroughUSB",
      ⟨"sketchLoadedThroughUSB", "sketchLoadedThroughUSB", 4242, "RUNNING"⟩)] }

/-- An `Op` that applies START to a sketch. -/
def Op.isStart : Op → Bool
  | .applyAction _ action => action = "START"
  | _ => false

/-- An `Op` of the hot-plug sequence that comes after the move: the chmod,
the stat, the registration and the START. -/
def Op.isAfterMove : Op → Bool
  | .Chmod _ _ => true
  | .Stat _ => true
  | .getSketchIDFromDB _ => true
  | .Set _ _ => true
  | .Publish => true
  | .applyAction _ action => action = "START"
  | _ => false

/-- Modelled from the spec: `applyAction` of the Sketch Supervisor, which is
defined outside the sources. START records a process identifier and sets the
record RUNNING, STOP clears the identifier and sets it STOPPED; the record is
the one the store holds under its ID. -/
def applyActionModel (sketch : SketchStatus) (action : String) (status : Status) :
    Status × Option String :=
  if action = "START" then
    (status.Set sketch.ID { sketch with PID := 4242, Status := "RUNNING" }, none)
  else if action = "STOP" then
    (status.Set sketch.ID { sketch with PID := 0, Status := "STOPPED" }, none)
  else
    (status, some "unknown action")

/-- A device like `okOS` whose sketches are started and stopped as
`applyActionModel` says; the identifier lookup finds nothing. -/
def supervisedOS : OS := { okOS with applyAction := applyActionModel }

/-- A device like `supervisedOS` whose identifier lookup knows every file
name. -/
def supervisedLookupOS : OS :=
  { supervisedOS with getSketchIDFromDB := fun name => .ok ("id-" ++ name) }

/-- An `Op` of the registration or the START that end the hot-plug sequence. -/
def Op.isRegisterOrStart : Op → Bool
  | .getSketchIDFromDB _ => true
  | .Set _ _ => true
  | .Publish => true
  | .applyAction _ action => action = "START"
  | _ => false


/-! ## Collaborator handlers: publication topics -/

theorem apt_handlers_follow_convention (lib : Lib) (payload : String) :
    FollowsConvention "/apt/list" (AptListEvent lib payload)
    ∧ FollowsConvention "/apt/install" (AptInstallEvent lib payload)
    ∧ FollowsConvention "/apt/upgrade" (AptUpgradeEvent lib payload)
    ∧ FollowsConvention "/apt/remove" (AptRemoveEvent lib payload) := by
  refine ⟨?_, ?_, ?_, ?_⟩
  · intro c hc
    unfold AptListEvent at hc
    repeat' split at hc
    all_goals simp at hc
    all_goals rcases hc with rfl | rfl | rfl
    all_goals simp [Call.isError, Call.isInfo, Call.topic?]
  · intro c hc
    unfold AptInstallEvent at hc
    repeat' split at hc
    all_goals simp at hc
    · subst hc; simp [Call.isError, Call.isInfo, Call.topic?]
    · rcases hc with rfl | rfl <;> simp [Call.isError, Call.isInfo, Call.topic?]
  · intro c hc
    unfold AptUpgradeEvent at hc
    split at hc
    · simp at hc
      subst hc; simp [Call.isError, Call.isInfo, Call.topic?]
    · dsimp only at hc
      split_ifs at hc
      all_goals simp at hc
      all_goals rcases hc with rfl | rfl <;> simp [Call.isError, Call.isInfo, Call.topic?]
  · intro c hc
    unfold AptRemoveEvent at hc
    repeat' split at hc
    all_goals simp at hc
    · subst hc; simp [Call.isError, Call.isInfo, Call.topic?]
    · rcases hc with rfl | rfl <;> simp [Call.isError, Call.isInfo, Call.topic?]

theorem sendRunResponse_topic (lib : Lib) (r : RunPayload) :
    publishesOnlyOn "/containers/action" (sendRunResponse lib r) = true := by
  unfold sendRunResponse publishesOnlyOn
  split <;> simp [Call.topic?]

theorem reportCollector_topic (call : Call) (what : String) (err : Option String)
    (hcall : call.topic? = none) :
    publishesOnlyOn "/stats" (reportCollector call what err) = true := by
  have he : ∀ t e, (Call.Error t e).topic? = some t := fun _ _ => rfl
  cases err <;> simp [publishesOnlyOn, reportCollector, hcall, he]

/-- The container, statistics and network handlers hand every publication,
failure or success, the plain topic `<suffix>`. -/
theorem other_handlers_publish_on_suffix (lib : Lib) (payload : String) :
    publishesOnlyOn "/containers/ps" (ContainersPsEvent lib payload) = true
    ∧ publishesOnlyOn "/containers/images" (ContainersListImagesEvent lib payload) = true
    ∧ publishesOnlyOn "/containers/action" (ContainersActionEvent lib payload) = true
    ∧ publishesOnlyOn "/stats" (StatsEvent lib payload) = true
    ∧ publishesOnlyOn "/wifi" (WiFiEvent lib payload) = true
    ∧ publishesOnlyOn "/ethernet" (EthEvent lib payload) = true := by
  refine ⟨?_, ?_, ?_, ?_, ?_, ?_⟩
  · unfold ContainersPsEvent
    repeat' split
    all_goals simp [publishesOnlyOn, Call.topic?]
  · unfold ContainersListImagesEvent
    repeat' split
    all_goals simp [publishesOnlyOn, Call.topic?]
  · have hs : ∀ r, ∀ x ∈ sendRunResponse lib r,
        x.topic? = none ∨ x.topic? = some "/containers/action" := by
      intro r
      simpa [publishesOnlyOn] using sendRunResponse_topic lib r
    unfold ContainersActionEvent
    repeat' split
    all_goals simp [publishesOnlyOn, Call.topic?, List.all_append]
    all_goals exact hs _
  · have h1 := reportCollector_topic .memGetStats "memory" lib.memGetStats.2 rfl
    have h2 := reportCollector_topic .diskGetStats "disk" lib.diskGetStats.2 rfl
    have h3 := reportCollector_topic .netGetNetworkStats "network" lib.netGetNetworkStats.2 rfl
    unfold publishesOnlyOn at h1 h2 h3
    unfold StatsEvent publishesOnlyOn
    rw [List.all_append, List.all_append, List.all_append, h1, h2, h3]
    generalize lib.marshalStats _ = r
    cases r <;> simp [Call.topic?]
  · unfold WiFiEvent
    split <;> simp [publishesOnlyOn, Call.topic?]
  · unfold EthEvent
    split <;> simp [publishesOnlyOn, Call.topic?]

/-- C1: a malformed `/wifi/post` payload and a `/containers/ps/post` request
with the docker daemon down are answered by `Status.Error` on the success
topics `/wifi` and `/containers/ps`, so these handlers do not follow the
`<suffix>/error` convention. -/
theorem failure_published_on_success_topic :
    WiFiEvent failingLib "not-json"
        = [Call.Error "/wifi" "unmarshal not-json: invalid character"]
    ∧ ContainersPsEvent dockerDownLib ""
        = [Call.dockerNewEnvClient, Call.ContainerList true,
            Call.Error "/containers/ps"
              "Json marshal result: Cannot connect to the Docker daemon"]
    ∧ ¬ FollowsConvention "/wifi" (WiFiEvent failingLib "not-json")
    ∧ ¬ FollowsConvention "/containers/ps" (ContainersPsEvent dockerDownLib "") := by
  refine ⟨by decide, by decide, ?_, ?_⟩
  · intro h
    have := (h (Call.Error "/wifi" "unmarshal not-json: invalid character") (by decide)).1 rfl
    revert this; decide
  · intro h
    have := (h (Call.Error "/containers/ps"
      "Json marshal result: Cannot connect to the Docker daemon") (by decide)).1 rfl
    revert this; decide

/-! ## Collaborator handlers: malformed payloads -/

/-- C2: when the payload does not parse into the parameter structure of the
handler, each of AptInstallEvent, AptUpgradeEvent, AptRemoveEvent,
ContainersActionEvent, WiFiEvent and EthEvent makes exactly one failure
publication, no success publication and no apt, docker or network call. -/
theorem malformed_payload_one_failure (lib : Lib) (payload : String) :
    (∀ err, lib.unmarshalPackages payload = .error err →
      OnlyOneFailure (AptInstallEvent lib payload)
      ∧ OnlyOneFailure (AptUpgradeEvent lib payload)
      ∧ OnlyOneFailure (AptRemoveEvent lib payload))
    ∧ (∀ err, lib.unmarshalRunParams payload = .error err →
      OnlyOneFailure (ContainersActionEvent lib payload))
    ∧ (∀ err, lib.unmarshalWiFi payload = .error err → OnlyOneFailure (WiFiEvent lib payload))
    ∧ (∀ err, lib.unmarshalEth payload = .error err → OnlyOneFailure (EthEvent lib payload)) := by
  refine ⟨?_, ?_, ?_, ?_⟩
  · intro err h
    simp [OnlyOneFailure, AptInstallEvent, AptUpgradeEvent, AptRemoveEvent, h, Call.isError,
      Call.isInfo, Call.isPublication, Call.isOperation]
  · intro err h
    simp [OnlyOneFailure, ContainersActionEvent, h, Call.isError, Call.isInfo,
      Call.isPublication, Call.isOperation]
  · intro err h
    simp [OnlyOneFailure, WiFiEvent, h, Call.isError, Call.isInfo, Call.isPublication,
      Call.isOperation]
  · intro err h
    simp [OnlyOneFailure, EthEvent, h, Call.isError, Call.isInfo, Call.isPublication,
      Call.isOperation]

/-- Witness of C2 on a device where no payload parses. -/
theorem malformed_payload_one_failure_witness :
    failingLib.unmarshalPackages "not-json" = .error "invalid character"
    ∧ failingLib.unmarshalRunParams "not-json" = .error "invalid character"
    ∧ failingLib.unmarshalWiFi "not-json" = .error "invalid character"
    ∧ failingLib.unmarshalEth "not-json" = .error "invalid character"
    ∧ OnlyOneFailure (AptInstallEvent failingLib "not-json")
    ∧ OnlyOneFailure (AptUpgradeEvent failingLib "not-json")
    ∧ OnlyOneFailure (AptRemoveEvent failingLib "not-json")
    ∧ OnlyOneFailure (ContainersActionEvent failingLib "not-json")
    ∧ OnlyOneFailure (WiFiEvent failingLib "not-json")
    ∧ OnlyOneFailure (EthEvent failingLib "not-json") :=
  have h := malformed_payload_one_failure failingLib "not-json"
  ⟨rfl, rfl, rfl, rfl, (h.1 _ rfl).1, (h.1 _ rfl).2.1, (h.1 _ rfl).2.2,
    h.2.1 _ rfl, h.2.2.1 _ rfl, h.2.2.2 _ rfl⟩

/-! ## Collaborator handlers: number of publications -/

/-- C3: with a failing memory collector StatsEvent publishes a failure and,
having no return after it, goes on to publish a success as well, two
publications in one invocation; with all collectors and the marshalling
failing it publishes four failures. -/
theorem StatsEvent_not_one_shot :
    StatsEvent dockerDownLib ""
      = [Call.memGetStats,
          Call.Error "/stats" "Retrieving memory stats: open /proc/meminfo: no such file",
          Call.diskGetStats, Call.netGetNetworkStats, Call.Info "/stats" "{}\n"]
    ∧ ¬ OneShot (StatsEvent dockerDownLib "")
    ∧ (StatsEvent failingLib "").countP Call.isError = 4
    ∧ ¬ OneShot (StatsEvent failingLib "") := by
  refine ⟨by decide, by decide, by decide, by decide⟩

theorem sendRunResponse_one_shot (lib : Lib) (r : RunPayload) :
    (sendRunResponse lib r).countP Call.isError + (sendRunResponse lib r).countP Call.isInfo
      = 1 := by
  unfold sendRunResponse
  split <;> simp [Call.isError, Call.isInfo]

theorem reportCollector_count (call : Call) (what : String) (err : Option String)
    (hcall : call.isError = false ∧ call.isInfo = false) :
    (reportCollector call what err).countP Call.isError = (if err.isSome then 1 else 0)
    ∧ (reportCollector call what err).countP Call.isInfo = 0 := by
  have he : ∀ t e, (Call.Error t e).isError = true := fun _ _ => rfl
  have hi : ∀ t e, (Call.Error t e).isInfo = false := fun _ _ => rfl
  cases err <;> simp [reportCollector, List.countP_cons, he, hi, hcall.1, hcall.2]

/-- The handlers that return after every failure publication, AptListEvent,
ContainersPsEvent, ContainersListImagesEvent and ContainersActionEvent, make
exactly one publication per invocation; StatsEvent makes one publication
more than it has failed collectors, at most one of them a success. -/
theorem handlers_publication_count (lib : Lib) (payload : String) :
    OneShot (AptListEvent lib payload)
    ∧ OneShot (ContainersPsEvent lib payload)
    ∧ OneShot (ContainersListImagesEvent lib payload)
    ∧ OneShot (ContainersActionEvent lib payload)
    ∧ (StatsEvent lib payload).countP Call.isError + (StatsEvent lib payload).countP Call.isInfo
        = failedCollectors lib + 1
    ∧ (StatsEvent lib payload).countP Call.isInfo ≤ 1
    ∧ (failedCollectors lib = 0 → OneShot (StatsEvent lib payload)) := by
  have hstats : (StatsEvent lib payload).countP Call.isError
        + (StatsEvent lib payload).countP Call.isInfo = failedCollectors lib + 1
      ∧ (StatsEvent lib payload).countP Call.isInfo ≤ 1 := by
    have h1 := reportCollector_count .memGetStats "memory" lib.memGetStats.2 ⟨rfl, rfl⟩
    have h2 := reportCollector_count .diskGetStats "disk" lib.diskGetStats.2 ⟨rfl, rfl⟩
    have h3 := reportCollector_count .netGetNetworkStats "network" lib.netGetNetworkStats.2
      ⟨rfl, rfl⟩
    unfold StatsEvent failedCollectors
    simp only [List.countP_append, h1.1, h1.2, h2.1, h2.2, h3.1, h3.2]
    generalize lib.marshalStats _ = r
    cases r <;> simp [Call.isError, Call.isInfo]
  refine ⟨?_, ?_, ?_, ?_, hstats.1, hstats.2, ?_⟩
  · unfold OneShot AptListEvent
    repeat' split
    all_goals simp [Call.isError, Call.isInfo]
  · unfold OneShot ContainersPsEvent
    repeat' split
    all_goals simp [Call.isError, Call.isInfo]
  · unfold OneShot ContainersListImagesEvent
    repeat' split
    all_goals simp [Call.isError, Call.isInfo]
  · have hs := sendRunResponse_one_shot lib
    unfold OneShot ContainersActionEvent
    repeat' split
    all_goals simp [Call.isError, Call.isInfo, List.countP_append, List.countP_cons, hs]
  · intro h0
    unfold OneShot
    rw [hstats.1, h0]

/-! ## Topic dispatch table -/

theorem String_append_left_cancel (p a b : String) (h : p ++ a = p ++ b) : a = b := by
  apply String.ext
  have h2 := congrArg String.data h
  simpa using h2

theorem subscribeTopic_topic {H : Type} (debugMqtt : Bool) (c : Client) (id topic : String)
    (handler : H) :
    (subscribeTopic debugMqtt c id topic handler).topic = "$aws/things/" ++ id ++ topic
    ∧ (subscribeTopic debugMqtt c id topic handler).qos = 1
    ∧ (subscribeTopic debugMqtt c id topic handler).client = c := by
  cases debugMqtt <;> simp [subscribeTopic]

theorem subscribeTopics_eq_table (debugMqtt : Bool) (c : Client) (id : String)
    (status : StatusPtr) :
    subscribeTopics debugMqtt c id (some status)
      = dispatchTable.map (fun e => subscribeTopic debugMqtt c id e.1 ⟨status, e.2⟩) := by
  simp [subscribeTopics, dispatchTable]

theorem subscribeTopics_topics (debugMqtt : Bool) (c : Client) (id : String)
    (status : StatusPtr) :
    (subscribeTopics debugMqtt c id (some status)).map (fun s => s.topic)
      = (dispatchTable.map Prod.fst).map (fun suffix => "$aws/things/" ++ id ++ suffix) := by
  rw [subscribeTopics_eq_table]
  simp [List.map_map, Function.comp_def, (subscribeTopic_topic debugMqtt c id _ _).1]

/-- C4, as stated, fails: the topic subscribed for the identifier `dev` and the
suffix `/status/post` is not `dev/status/post`, in either mode. -/
theorem subscribed_topic_is_not_id_then_suffix :
    (subscribeTopic false ⟨0⟩ "dev" "/status/post" Method.StatusEvent).topic
        = "$aws/things/dev/status/post"
    ∧ (subscribeTopic false ⟨0⟩ "dev" "/status/post" Method.StatusEvent).topic
        ≠ "dev" ++ "/status/post"
    ∧ (subscribeTopic true ⟨0⟩ "dev" "/status/post" Method.StatusEvent).topic
        ≠ "dev" ++ "/status/post" := by
  decide

/-- C4, amended: for every identifier, suffix and handler, in the debug and in
the non-debug mode, subscribeTopic subscribes to exactly the topic formed by
the fixed namespace `$aws/things/`, the device identifier and the suffix. -/
theorem subscribeTopic_topic_in_namespace {H : Type} (debugMqtt : Bool) (c : Client)
    (id topic : String) (handler : H) :
    (subscribeTopic debugMqtt c id topic handler).topic = "$aws/things/" ++ id ++ topic :=
  (subscribeTopic_topic debugMqtt c id topic handler).1

/-- C5: for every identifier and non-nil status the topics subscribed by one
call of subscribeTopics are pairwise distinct, so every topic is bound to at
most one handler; the six core suffixes are subscribed and `/heartbeat` is
not. -/
theorem subscribeTopics_distinct (debugMqtt : Bool) (c : Client) (id : String)
    (status : StatusPtr) :
    ((subscribeTopics debugMqtt c id (some status)).map (fun s => s.topic)).Nodup
    ∧ (∀ topic, ((subscribeTopics debugMqtt c id (some status)).map
          (fun s => s.topic)).count topic ≤ 1)
    ∧ (∀ s1 ∈ subscribeTopics debugMqtt c id (some status),
        ∀ s2 ∈ subscribeTopics debugMqtt c id (some status), s1.topic = s2.topic → s1 = s2)
    ∧ (∀ suffix ∈ ["/status/post", "/sketch/post", "/update/post", "/stats/post",
          "/wifi/post", "/ethernet/post"],
        "$aws/things/" ++ id ++ suffix
          ∈ (subscribeTopics debugMqtt c id (some status)).map (fun s => s.topic))
    ∧ "$aws/things/" ++ id ++ "/heartbeat"
        ∉ (subscribeTopics debugMqtt c id (some status)).map (fun s => s.topic) := by
  have hinj : Function.Injective (fun suffix : String => "$aws/things/" ++ id ++ suffix) :=
    fun a b h => String_append_left_cancel _ a b h
  have hnodup :
      ((subscribeTopics debugMqtt c id (some status)).map (fun s => s.topic)).Nodup := by
    rw [subscribeTopics_topics]
    exact List.Nodup.map hinj (by decide)
  refine ⟨hnodup, ?_, ?_, ?_, ?_⟩
  · intro topic
    exact List.nodup_iff_count_le_one.mp hnodup topic
  · intro s1 h1 s2 h2 h
    exact List.inj_on_of_nodup_map hnodup h1 h2 h
  · intro suffix hs
    rw [subscribeTopics_topics]
    refine List.mem_map.mpr ⟨suffix, ?_, rfl⟩
    revert suffix
    decide
  · rw [subscribeTopics_topics]
    intro hmem
    obtain ⟨suffix, hs, heq⟩ := List.mem_map.mp hmem
    have := hinj heq
    subst this
    revert hs
    decide

/-- C6: the debug mode subscribes to the same topic with the same QoS on the
same client as the non-debug mode, and the callback it installs prints the
message and then calls the original handler exactly once with the same client
and message, which is all the non-debug callback does; so the whole table of
subscribeTopics binds the same topics to the same handler calls in both
modes. -/
theorem debug_mode_preserves_dispatch {H : Type} (c : Client) (id topic : String)
    (handler : H) (client : Client) (msg : Message) :
    (subscribeTopic true c id topic handler).topic
        = (subscribeTopic false c id topic handler).topic
    ∧ (subscribeTopic true c id topic handler).qos
        = (subscribeTopic false c id topic handler).qos
    ∧ (subscribeTopic true c id topic handler).client
        = (subscribeTopic false c id topic handler).client
    ∧ (subscribeTopic false c id topic handler).callback.run client msg
        = [Step.call handler client msg]
    ∧ (subscribeTopic true c id topic handler).callback.run client msg
        = [Step.Println ["MQTT IN:", msg.Topic, msg.Payload], Step.call handler client msg]
    ∧ ((subscribeTopic true c id topic handler).callback.run client msg).filter Step.isCall
        = (subscribeTopic false c id topic handler).callback.run client msg
    ∧ (((subscribeTopic true c id topic handler).callback.run client msg).filter
        Step.isCall).length = 1
    ∧ (∀ status,
        (subscribeTopics true c id status).map
            (fun s => (s.client, s.topic, s.qos, (s.callback.run client msg).filter Step.isCall))
          = (subscribeTopics false c id status).map
            (fun s => (s.client, s.topic, s.qos, s.callback.run client msg))) := by
  refine ⟨?_, ?_, ?_, ?_, ?_, ?_, ?_, ?_⟩
  · simp [subscribeTopic]
  · simp [subscribeTopic]
  · simp [subscribeTopic]
  · simp [subscribeTopic, Callback.run]
  · simp [subscribeTopic, Callback.run]
  · simp [subscribeTopic, Callback.run, Step.isCall]
  · simp [subscribeTopic, Callback.run, Step.isCall]
  · intro status
    cases status with
    | none => rfl
    | some st => simp [subscribeTopics, subscribeTopic, Callback.run, Step.isCall]

/-- C7, as stated, fails: set up with a nil status, the on-connect handler
issues no subscription at all instead of the dispatch table. -/
theorem nil_status_resubscribes_nothing :
    ∃ client opts,
      setupMQTTConnection false okMqtt "certificate.pem" "certificate.key" "dev" "broker" none
        = .ok (client, opts)
      ∧ opts.OnConnect client = []
      ∧ (opts.OnConnect client).map (fun s => s.topic)
          ≠ dispatchTable.map (fun e => "$aws/things/" ++ "dev" ++ e.1) := by
  refine ⟨⟨1⟩, _, rfl, rfl, ?_⟩
  decide

/-- C7, amended: the on-connect handler installed by setupMQTTConnection calls
subscribeTopics with the same id and status on every (re)connect, so all
successive (re)connects issue the same sequence of subscriptions; for a
non-nil status that sequence is the full dispatch table, for a nil status it
is empty. -/
theorem resubscription_on_reconnect (debugMqtt : Bool) (lib : MqttLib)
    (cert key id url : String) (status : Option StatusPtr) (client : Client)
    (opts : ClientOptions)
    (h : setupMQTTConnection debugMqtt lib cert key id url status = .ok (client, opts)) :
    (∀ c, opts.OnConnect c = subscribeTopics debugMqtt c id status)
    ∧ (∀ c n, ∀ subs ∈ reconnects opts c n, subs = subscribeTopics debugMqtt c id status)
    ∧ (∀ c, subscribeTopics debugMqtt c id status ++ subscribeTopics debugMqtt c id status
        = (reconnects opts c 2).flatten)
    ∧ (∀ c st, status = some st →
        opts.OnConnect c
          = dispatchTable.map (fun e => subscribeTopic debugMqtt c id e.1 ⟨st, e.2⟩))
    ∧ (status = none → ∀ c, opts.OnConnect c = []) := by
  have hon : ∀ c, opts.OnConnect c = subscribeTopics debugMqtt c id status := by
    intro c
    unfold setupMQTTConnection at h
    split at h
    · cases h
    · dsimp only at h
      split at h
      · cases h
      · cases h
        rfl
  refine ⟨hon, ?_, ?_, ?_, ?_⟩
  · intro c n subs hs
    rw [reconnects, List.mem_replicate] at hs
    rw [hs.2, hon]
  · intro c
    simp [reconnects, List.replicate, hon]
  · intro c st hst
    rw [hon, hst, subscribeTopics_eq_table]
  · intro hst c
    rw [hon, hst]
    rfl

/-- Witness of C7 on a connection that succeeds with a non-nil status. -/
theorem resubscription_on_reconnect_witness :
    setupMQTTConnection false okMqtt "certificate.pem" "certificate.key" "dev" "broker"
        (some ⟨7⟩) = .ok (⟨1⟩, devOptions)
    ∧ (∀ c, devOptions.OnConnect c = subscribeTopics false c "dev" (some ⟨7⟩))
    ∧ (∀ c st, some (⟨7⟩ : StatusPtr) = some st →
        devOptions.OnConnect c
          = dispatchTable.map (fun e => subscribeTopic false c "dev" e.1 ⟨st, e.2⟩)) :=
  have h := resubscription_on_reconnect false okMqtt "certificate.pem" "certificate.key" "dev"
    "broker" (some ⟨7⟩) ⟨1⟩ devOptions rfl
  ⟨rfl, h.1, h.2.2.2.1⟩

/-! ## Sketch registration -/

theorem mapGet_mapSet_self {V : Type} (m : List (String × V)) (key : String) (value : V) :
    mapGet (mapSet m key value) key = some value := by
  induction m with
  | nil => simp [mapSet, mapGet]
  | cons e rest ih =>
    obtain ⟨k, v⟩ := e
    by_cases hk : k = key
    · simp [mapSet, mapGet, hk]
    · simp [mapSet, mapGet, hk, ih]

theorem mapSet_mapSet_self {V : Type} (m : List (String × V)) (key : String) (value : V) :
    mapSet (mapSet m key value) key value = mapSet m key value := by
  induction m with
  | nil => simp [mapSet]
  | cons e rest ih =>
    obtain ⟨k, v⟩ := e
    by_cases hk : k = key
    · simp [mapSet, hk]
    · simp [mapSet, hk, ih]

theorem mapSet_keys_count {V : Type} (m : List (String × V)) (key : String) (value : V) :
    ((mapSet m key value).map Prod.fst).count key
      = if key ∈ m.map Prod.fst then (m.map Prod.fst).count key else 1 := by
  induction m with
  | nil => simp [mapSet]
  | cons e rest ih =>
    obtain ⟨k, v⟩ := e
    by_cases hk : k = key
    · subst hk
      simp [mapSet]
    · have hk2 : ¬ key = k := fun h => hk h.symm
      simp only [mapSet, hk, if_false, List.map_cons, List.mem_cons, hk2, false_or]
      rw [List.count_cons_of_ne hk2, List.count_cons_of_ne hk2]
      exact ih

theorem mapSet_keys_count_nodup {V : Type} (m : List (String × V)) (key : String) (value : V)
    (hm : (m.map Prod.fst).Nodup) : ((mapSet m key value).map Prod.fst).count key = 1 := by
  rw [mapSet_keys_count]
  split
  · next hmem => exact List.count_eq_one_of_mem hm hmem
  · rfl

theorem addFileToSketchDB_record (os : OS) (file : FileInfo) (s1 s2 : Status) :
    (addFileToSketchDB os file s1).1 = (addFileToSketchDB os file s2).1
    ∧ (addFileToSketchDB os file s1).2.2 = (addFileToSketchDB os file s2).2.2 := by
  simp [addFileToSketchDB]

/-- C8: addFileToSketchDB takes the identifier from the name→identifier lookup
when it succeeds and the raw file name when it fails, stores the record under
a key equal to the record's own ID, and registering the same file name again
replaces the record under that key: the store is the same as after the first
registration and holds exactly one record under the key. -/
theorem addFileToSketchDB_key (os : OS) (file : FileInfo) (status : Status) :
    (∀ id, os.getSketchIDFromDB file.Name = .ok id →
        (addFileToSketchDB os file status).1.ID = id)
    ∧ (∀ err, os.getSketchIDFromDB file.Name = .error err →
        (addFileToSketchDB os file status).1.ID = file.Name)
    ∧ Op.Set (addFileToSketchDB os file status).1.ID (addFileToSketchDB os file status).1
        ∈ (addFileToSketchDB os file status).2.2
    ∧ registered (addFileToSketchDB os file status).2.2 = [(addFileToSketchDB os file status).1]
    ∧ mapGet (addFileToSketchDB os file status).2.1.Sketches
        (addFileToSketchDB os file status).1.ID = some (addFileToSketchDB os file status).1
    ∧ (addFileToSketchDB os file (addFileToSketchDB os file status).2.1).1
        = (addFileToSketchDB os file status).1
    ∧ (addFileToSketchDB os file (addFileToSketchDB os file status).2.1).2.1
        = (addFileToSketchDB os file status).2.1
    ∧ ((status.Sketches.map Prod.fst).Nodup →
        (((addFileToSketchDB os file (addFileToSketchDB os file status).2.1).2.1.Sketches.map
          Prod.fst).count (addFileToSketchDB os file status).1.ID = 1)) := by
  refine ⟨?_, ?_, ?_, ?_, ?_, ?_, ?_, ?_⟩
  · intro id h
    simp [addFileToSketchDB, h]
  · intro err h
    simp [addFileToSketchDB, h]
  · simp [addFileToSketchDB]
  · simp [addFileToSketchDB, registered]
  · simp [addFileToSketchDB, Status.Set, mapGet_mapSet_self]
  · simp [addFileToSketchDB]
  · simp [addFileToSketchDB, Status.Set, mapSet_mapSet_self]
  · intro hm
    simp only [addFileToSketchDB, Status.Set, mapSet_mapSet_self]
    exact mapSet_keys_count_nodup _ _ _ hm

/-- Witness of C8: a file whose name the lookup knows, one it does not know,
and a store with distinct keys. -/
theorem addFileToSketchDB_key_witness :
    lookupOS.getSketchIDFromDB "blink" = .ok "id-blink"
    ∧ (addFileToSketchDB lookupOS ⟨"blink", false⟩ emptyStatus).1.ID = "id-blink"
    ∧ okOS.getSketchIDFromDB "blink" = .error "sketch not found"
    ∧ (addFileToSketchDB okOS ⟨"blink", false⟩ emptyStatus).1.ID = "blink"
    ∧ (emptyStatus.Sketches.map Prod.fst).Nodup
    ∧ (((addFileToSketchDB okOS ⟨"blink", false⟩
          (addFileToSketchDB okOS ⟨"blink", false⟩ emptyStatus).2.1).2.1.Sketches.map
        Prod.fst).count (addFileToSketchDB okOS ⟨"blink", false⟩ emptyStatus).1.ID = 1) :=
  ⟨rfl, (addFileToSketchDB_key lookupOS ⟨"blink", false⟩ emptyStatus).1 "id-blink" rfl,
    rfl, (addFileToSketchDB_key okOS ⟨"blink", false⟩ emptyStatus).2.1 "sketch not found" rfl,
    by decide,
    (addFileToSketchDB_key okOS ⟨"blink", false⟩ emptyStatus).2.2.2.2.2.2.2 (by decide)⟩

theorem bootScan_foldl (os : OS) (files : List FileInfo) (status : Status) (ops : List Op) :
    registered (files.foldl
      (fun acc file =>
        if file.IsDir then acc
        else
          let r := addFileToSketchDB os file acc.1
          (r.2.1, acc.2 ++ r.2.2))
      (status, ops)).2
    = registered ops
      ++ (files.filter (fun f => !f.IsDir)).map (fun f => (addFileToSketchDB os f status).1) := by
  have hreg : ∀ (a b : List Op), registered (a ++ b) = registered a ++ registered b := by
    intro a b
    induction a with
    | nil => rfl
    | cons x xs ih => cases x <;> simp [registered, ih]
  induction files generalizing status ops with
  | nil => simp
  | cons f rest ih =>
    by_cases hd : f.IsDir = true
    · simp only [List.foldl_cons, hd, if_true]
      rw [ih]
      simp [hd]
    · simp only [List.foldl_cons, hd]
      rw [if_neg (by simp), ih, hreg]
      have hr : registered (addFileToSketchDB os f status).2.2
          = [(addFileToSketchDB os f status).1] := by
        simp [addFileToSketchDB, registered]
      rw [hr]
      simp [hd, addFileToSketchDB]

/-- C9: every record made by addFileToSketchDB has Status STOPPED and PID 0 and
so satisfies RUNNING iff PID non-zero; the boot-time scan registers exactly
one such record for every entry that is not a directory, in order, and none
for a directory. -/
theorem registered_records_stopped (os : OS) (files : List FileInfo) (file : FileInfo)
    (status : Status) :
    ((addFileToSketchDB os file status).1.Status = "STOPPED"
      ∧ (addFileToSketchDB os file status).1.PID = 0
      ∧ (addFileToSketchDB os file status).1.Name = file.Name
      ∧ (addFileToSketchDB os file status).1.invariant)
    ∧ registered (bootScan os (.ok files) status).2
        = (files.filter (fun f => !f.IsDir)).map (fun f => (addFileToSketchDB os f status).1)
    ∧ (registered (bootScan os (.ok files) status).2).map (fun s => s.Name)
        = (files.filter (fun f => !f.IsDir)).map (fun f => f.Name)
    ∧ (∀ s ∈ registered (bootScan os (.ok files) status).2,
        s.Status = "STOPPED" ∧ s.PID = 0 ∧ s.invariant) := by
  have hrec : ∀ f st, (addFileToSketchDB os f st).1.Status = "STOPPED"
      ∧ (addFileToSketchDB os f st).1.PID = 0
      ∧ (addFileToSketchDB os f st).1.Name = f.Name
      ∧ (addFileToSketchDB os f st).1.invariant := by
    intro f st
    simp [addFileToSketchDB, SketchStatus.invariant]
  have hscan : registered (bootScan os (.ok files) status).2
      = (files.filter (fun f => !f.IsDir)).map (fun f => (addFileToSketchDB os f status).1) := by
    have := bootScan_foldl os files status []
    simpa [bootScan, registered] using this
  refine ⟨hrec file status, hscan, ?_, ?_⟩
  · rw [hscan, List.map_map]
    apply List.map_congr_left
    intro f _
    exact (hrec f status).2.2.1
  · intro s hs
    rw [hscan] at hs
    obtain ⟨f, _, rfl⟩ := List.mem_map.mp hs
    exact ⟨(hrec f status).1, (hrec f status).2.1, (hrec f status).2.2.2⟩

/-! ## Hot-plug watcher -/

theorem stopExisting_ops (os : OS) (status : Status) :
    ∀ op ∈ (stopExisting os status).2, op.isStop = true := by
  intro op hop
  unfold stopExisting at hop
  split at hop
  · simp at hop
    subst hop
    simp [Op.isStop]
  · simp at hop

theorem moveSketch_ops (os : OS) (oldpath newpath : String) :
    (moveSketch os oldpath newpath).2.head? = some (Op.Rename oldpath newpath)
    ∧ ∀ op ∈ (moveSketch os oldpath newpath).2, op.isMoveOf oldpath newpath = true := by
  unfold moveSketch
  split
  · simp [Op.isMoveOf]
  · refine ⟨by simp, ?_⟩
    intro op hop
    simp only [List.mem_cons] at hop
    rcases hop with rfl | hop
    · simp [Op.isMoveOf]
    · unfold copyFileAndRemoveOriginal at hop
      repeat' split at hop
      all_goals simp at hop
      · subst hop; simp [Op.isMoveOf]
      · rcases hop with rfl | rfl <;> simp [Op.isMoveOf]
      · rcases hop with rfl | rfl | rfl <;> simp [Op.isMoveOf]

/-- C10: for an event with the Create bit, when the move (rename, or fallback
copy) and the stat succeed, the watcher performs in this order: the 2 s settle
delay, after the STOP of a sketch in the slot if there is one the move of the
dropped file to folderDest/sketchLoadedThroughUSB, the chmod of that file to
0700, the registration of a new STOPPED record through addFileToSketchDB and
START on exactly that record; an event without the Create bit is only
logged. -/
theorem hotplug_create_sequence (os : OS) (folderDest : String) (status : Status)
    (event : Event) :
    (event.Op &&& fsnotifyCreate = fsnotifyCreate →
      (moveSketch os event.Name (os.Join folderDest "sketchLoadedThroughUSB")).1 = none →
      ∀ fileInfo, os.Stat (os.Join folderDest "sketchLoadedThroughUSB") = .ok fileInfo →
        (handleEvent os folderDest status event).2
          = [Op.LogEvent event, Op.Sleep (2 * Second)]
            ++ (stopExisting os status).2
            ++ (moveSketch os event.Name (os.Join folderDest "sketchLoadedThroughUSB")).2
            ++ [Op.Chmod (os.Join folderDest "sketchLoadedThroughUSB") 0o700,
                Op.Println "Moving new sketch to sketches folder",
                Op.Stat (os.Join folderDest "sketchLoadedThroughUSB")]
            ++ (addFileToSketchDB os fileInfo (stopExisting os status).1).2.2
            ++ [Op.applyAction (addFileToSketchDB os fileInfo (stopExisting os status).1).1
                "START"]
        ∧ (∀ op ∈ (stopExisting os status).2, op.isStop = true)
        ∧ (moveSketch os event.Name (os.Join folderDest "sketchLoadedThroughUSB")).2.head?
            = some (Op.Rename event.Name (os.Join folderDest "sketchLoadedThroughUSB"))
        ∧ (∀ op ∈ (moveSketch os event.Name (os.Join folderDest "sketchLoadedThroughUSB")).2,
            op.isMoveOf event.Name (os.Join folderDest "sketchLoadedThroughUSB") = true)
        ∧ 0o700 &&& 0o100 = 0o100
        ∧ registered (addFileToSketchDB os fileInfo (stopExisting os status).1).2.2
            = [(addFileToSketchDB os fileInfo (stopExisting os status).1).1]
        ∧ (addFileToSketchDB os fileInfo (stopExisting os status).1).1.Status = "STOPPED"
        ∧ (addFileToSketchDB os fileInfo (stopExisting os status).1).1.PID = 0)
    ∧ (¬ event.Op &&& fsnotifyCreate = fsnotifyCreate →
        handleEvent os folderDest status event = (status, [Op.LogEvent event])) := by
  constructor
  · intro hcreate hmove fileInfo hstat
    refine ⟨?_, stopExisting_ops os status, (moveSketch_ops os _ _).1,
      (moveSketch_ops os _ _).2, by decide, ?_, ?_, ?_⟩
    · unfold handleEvent
      rw [if_pos hcreate]
      simp only [hmove, hstat]
    · simp [addFileToSketchDB, registered]
    · simp [addFileToSketchDB]
    · simp [addFileToSketchDB]
  · intro hcreate
    unfold handleEvent
    rw [if_neg hcreate]

/-- Witness of C10: `foo.bin` dropped into `/tmp/sketches`, once with a rename
that succeeds and once with the fallback copy, and a Write event. -/
theorem hotplug_create_sequence_witness :
    (handleEvent okOS "/sketches" emptyStatus ⟨"/tmp/sketches/foo.bin", 1⟩).2
      = [Op.LogEvent ⟨"/tmp/sketches/foo.bin", 1⟩, Op.Sleep 2000000000,
          Op.Rename "/tmp/sketches/foo.bin" "/sketches/sketchLoadedThroughUSB",
          Op.Chmod "/sketches/sketchLoadedThroughUSB" 448,
          Op.Println "Moving new sketch to sketches folder",
          Op.Stat "/sketches/sketchLoadedThroughUSB",
          Op.getSketchIDFromDB "sketchLoadedThroughUSB",
          Op.Println "Getting sketch from sketchLoadedThroughUSB sketchLoadedThroughUSB",
          Op.Set "sketchLoadedThroughUSB"
            ⟨"sketchLoadedThroughUSB", "sketchLoadedThroughUSB", 0, "STOPPED"⟩,
          Op.Publish,
          Op.applyAction ⟨"sketchLoadedThroughUSB", "sketchLoadedThroughUSB", 0, "STOPPED"⟩
            "START"]
    ∧ (moveSketch crossDeviceOS "/tmp/sketches/foo.bin"
        (crossDeviceOS.Join "/sketches" "sketchLoadedThroughUSB")).2
      = [Op.Rename "/tmp/sketches/foo.bin" "/sketches/sketchLoadedThroughUSB",
          Op.ReadFile "/tmp/sketches/foo.bin",
          Op.WriteFile "/sketches/sketchLoadedThroughUSB" [] 420,
          Op.Remove "/tmp/sketches/foo.bin"]
    ∧ handleEvent okOS "/sketches" emptyStatus ⟨"/tmp/sketches/foo.bin", 2⟩
      = (emptyStatus, [Op.LogEvent ⟨"/tmp/sketches/foo.bin", 2⟩]) :=
  ⟨((hotplug_create_sequence okOS "/sketches" emptyStatus ⟨"/tmp/sketches/foo.bin", 1⟩).1
      (by decide) rfl ⟨"sketchLoadedThroughUSB", false⟩ rfl).1,
    by decide,
    (hotplug_create_sequence okOS "/sketches" emptyStatus ⟨"/tmp/sketches/foo.bin", 2⟩).2
      (by decide)⟩

/-! ## `appendIfUnique` -/

theorem appendIfUnique_found_iff (slice : List String) (element : String) :
    appendIfUnique.found slice element = true ↔ element ∈ slice := by
  induction slice with
  | nil => simp [appendIfUnique.found]
  | cons el rest ih =>
    by_cases h : el = element
    · simp [appendIfUnique.found, h]
    · have h2 : ¬ element = el := fun e => h e.symm
      simp [appendIfUnique.found, h, h2, ih]

/-- C18: for a duplicate-free slice s and a string e, appendIfUnique(s, e) is
duplicate-free, contains e and has s as a prefix; it is s when e occurs in s
and s followed by e otherwise; appending e a second time changes nothing. -/
theorem appendIfUnique_spec (s : List String) (e : String) (hs : s.Nodup) :
    (appendIfUnique s e).Nodup
    ∧ e ∈ appendIfUnique s e
    ∧ s <+: appendIfUnique s e
    ∧ (e ∈ s → appendIfUnique s e = s)
    ∧ (e ∉ s → appendIfUnique s e = s ++ [e])
    ∧ appendIfUnique (appendIfUnique s e) e = appendIfUnique s e := by
  have hin : e ∈ s → appendIfUnique s e = s := by
    intro h
    simp [appendIfUnique, (appendIfUnique_found_iff s e).mpr h]
  have hout : e ∉ s → appendIfUnique s e = s ++ [e] := by
    intro h
    have hf : appendIfUnique.found s e = false := by
      cases hfe : appendIfUnique.found s e with
      | false => rfl
      | true => exact absurd ((appendIfUnique_found_iff s e).mp hfe) h
    simp [appendIfUnique, hf]
  have hmem : e ∈ appendIfUnique s e := by
    by_cases h : e ∈ s
    · rw [hin h]; exact h
    · rw [hout h]; simp
  refine ⟨?_, hmem, ?_, hin, hout, ?_⟩
  · by_cases h : e ∈ s
    · rw [hin h]; exact hs
    · rw [hout h]
      exact List.nodup_append.mpr ⟨hs, List.nodup_singleton e, by
        intro a ha hb
        rw [List.mem_singleton] at hb
        exact h (hb ▸ ha)⟩
  · by_cases h : e ∈ s
    · rw [hin h]
    · rw [hout h]; exact List.prefix_append s [e]
  · have h := (appendIfUnique_found_iff (appendIfUnique s e) e).mpr hmem
    generalize appendIfUnique s e = t at h ⊢
    simp [appendIfUnique, h]

/-- Witness of C18 on a slice that holds the element and on one that does
not. -/
theorem appendIfUnique_spec_witness :
    ["a", "b"].Nodup
    ∧ appendIfUnique ["a", "b"] "c" = ["a", "b", "c"]
    ∧ appendIfUnique ["a", "b"] "a" = ["a", "b"]
    ∧ appendIfUnique (appendIfUnique ["a", "b"] "c") "c" = appendIfUnique ["a", "b"] "c" :=
  ⟨by decide,
    (appendIfUnique_spec ["a", "b"] "c" (by decide)).2.2.2.2.1 (by decide),
    (appendIfUnique_spec ["a", "b"] "a" (by decide)).2.2.2.1 (by decide),
    (appendIfUnique_spec ["a", "b"] "c" (by decide)).2.2.2.2.2⟩

/-! ## `AptUpgradeEvent`, `ContainersActionEvent` without action, the heartbeat -/

/-- C14: for a payload that parses, AptUpgradeEvent calls UpgradeAll once and
Upgrade never when the package list is empty (or absent, which decodes to the
empty list), and otherwise Upgrade once with one package per listed name in
the listed order and UpgradeAll never; both times the output and the error of
the command go to InfoCommandOutput on `/apt/upgrade`. -/
theorem AptUpgradeEvent_dispatch (lib : Lib) (payload : String) (packages : List String)
    (hparse : lib.unmarshalPackages payload = .ok packages) :
    (packages = [] →
      AptUpgradeEvent lib payload
        = [Call.aptUpgradeAll,
            Call.InfoCommandOutput "/apt/upgrade" lib.aptUpgradeAll.1 lib.aptUpgradeAll.2]
      ∧ (AptUpgradeEvent lib payload).countP Call.isUpgradeAll = 1
      ∧ (AptUpgradeEvent lib payload).countP Call.isUpgrade = 0)
    ∧ (packages ≠ [] →
      AptUpgradeEvent lib payload
        = [Call.aptUpgrade (packages.map fun p => { Name := p }),
            Call.InfoCommandOutput "/apt/upgrade" lib.aptUpgrade.1 lib.aptUpgrade.2]
      ∧ (AptUpgradeEvent lib payload).countP Call.isUpgrade = 1
      ∧ (AptUpgradeEvent lib payload).countP Call.isUpgradeAll = 0
      ∧ ((packages.map fun p => ({ Name := p } : Package)).map fun p => p.Name) = packages)
    ∧ (AptUpgradeEvent lib payload).countP Call.isError = 0 := by
  refine ⟨?_, ?_, ?_⟩
  · intro h
    subst h
    simp [AptUpgradeEvent, hparse, toPackages, Call.isUpgradeAll, Call.isUpgrade]
  · intro h
    simp [AptUpgradeEvent, hparse, toPackages, h, Call.isUpgradeAll, Call.isUpgrade,
      Function.comp_def]
  · by_cases h : packages = []
    · subst h
      simp [AptUpgradeEvent, hparse, toPackages, Call.isError]
    · simp [AptUpgradeEvent, hparse, toPackages, h, Call.isError]

/-- Witness of C14: a payload listing one package, and one listing none. -/
theorem AptUpgradeEvent_dispatch_witness :
    dockerDownLib.unmarshalPackages "p" = .ok ["vim"]
    ∧ AptUpgradeEvent dockerDownLib "p"
        = [Call.aptUpgrade [{ Name := "vim" }], Call.InfoCommandOutput "/apt/upgrade" "done" none]
    ∧ AptUpgradeEvent { dockerDownLib with unmarshalPackages := fun _ => .ok [] } "p"
        = [Call.aptUpgradeAll, Call.InfoCommandOutput "/apt/upgrade" "done" none] :=
  ⟨rfl, ((AptUpgradeEvent_dispatch dockerDownLib "p" ["vim"] rfl).2.1 (by decide)).1,
    ((AptUpgradeEvent_dispatch { dockerDownLib with unmarshalPackages := fun _ => .ok [] } "p"
      [] rfl).1 rfl).1⟩

/-- C17: for a payload that parses with an action that is neither `start` nor
`stop`, when the docker client can be created, ContainersActionEvent pulls no
image, creates, starts and stops no container, and marshals and publishes on
`/containers/action` the zero-valued response instead of the request; the
only publication is that success, json.Marshal succeeding on the response. -/
theorem ContainersActionEvent_no_action (lib : Lib) (payload : String) (runParams : RunParams)
    (hparse : lib.unmarshalRunParams payload = .ok runParams)
    (hstart : runParams.Action ≠ "start") (hstop : runParams.Action ≠ "stop")
    (hcli : lib.dockerNewEnvClient = none) :
    ContainersActionEvent lib payload
      = [Call.dockerNewEnvClient]
        ++ sendRunResponse lib
            { ImageName := "", ContainerName := "", RunAsDaemon := false, ContainerId := ""
              Action := "" }
    ∧ (ContainersActionEvent lib payload).countP Call.isContainerOperation = 0
    ∧ (∀ data, lib.marshalRun
          { ImageName := "", ContainerName := "", RunAsDaemon := false, ContainerId := ""
            Action := "" } = .ok data →
        ContainersActionEvent lib payload
          = [Call.dockerNewEnvClient, Call.Info "/containers/action" (data ++ "\n")]
        ∧ (ContainersActionEvent lib payload).countP Call.isError = 0
        ∧ (ContainersActionEvent lib payload).countP Call.isInfo = 1) := by
  have htrace : ContainersActionEvent lib payload
      = [Call.dockerNewEnvClient] ++ sendRunResponse lib {} := by
    simp [ContainersActionEvent, hparse, hcli, hstart, hstop]
  refine ⟨htrace, ?_, ?_⟩
  · rw [htrace]
    unfold sendRunResponse
    split <;> simp [Call.isContainerOperation]
  · intro data hdata
    rw [htrace]
    simp [sendRunResponse, hdata, Call.isError, Call.isInfo]

/-- Witness of C17: a request with the action `restart` and with an image and
a name, which the response does not echo. -/
theorem ContainersActionEvent_no_action_witness :
    ContainersActionEvent
        { dockerDownLib with
          unmarshalRunParams := fun _ =>
            .ok { Action := "restart", ImageName := "alpine", ContainerName := "web" }
          marshalRun := fun r =>
            .ok (r.ImageName ++ "," ++ r.ContainerName ++ "," ++ r.ContainerId ++ ","
              ++ r.Action) } "p"
      = [Call.dockerNewEnvClient, Call.Info "/containers/action" ",,,\n"] :=
  ((ContainersActionEvent_no_action
      { dockerDownLib with
        unmarshalRunParams := fun _ =>
          .ok { Action := "restart", ImageName := "alpine", ContainerName := "web" }
        marshalRun := fun r =>
          .ok (r.ImageName ++ "," ++ r.ContainerName ++ "," ++ r.ContainerId ++ ","
            ++ r.Action) } "p"
      { Action := "restart", ImageName := "alpine", ContainerName := "web" } rfl (by decide)
      (by decide) rfl).2.2 ",,," rfl).1

/-- C13: the heartbeat callback returns a non-nil error exactly when
status.Info on `/heartbeat` returns false; for every payload it publishes once
on `/heartbeat` and returns to its caller; and newHeartbeat is called only
when the status holds a cloud client. -/
theorem heartbeat_callback (info : String → String → Bool) (payload : String)
    (status : Status) :
    ((heartbeatCallback info payload).1 = .returned (some "Publish failed")
        ↔ info "/heartbeat" payload = false)
    ∧ ((heartbeatCallback info payload).1 = .returned none
        ↔ info "/heartbeat" payload = true)
    ∧ (∃ err, (heartbeatCallback info payload).1 = .returned err)
    ∧ (∀ code, (heartbeatCallback info payload).1 ≠ .exited code)
    ∧ (heartbeatCallback info payload).2 = [Call.Info "/heartbeat" payload]
    ∧ ((startHeartbeat status info).isSome = true ↔ status.mqttClient ≠ none)
    ∧ (status.mqttClient = none → startHeartbeat status info = none)
    ∧ (∀ callback, startHeartbeat status info = some callback →
        callback = heartbeatCallback info) := by
  refine ⟨?_, ?_, ?_, ?_, ?_, ?_, ?_, ?_⟩
  · cases h : info "/heartbeat" payload <;> simp [heartbeatCallback, h]
  · cases h : info "/heartbeat" payload <;> simp [heartbeatCallback, h]
  · cases h : info "/heartbeat" payload <;> simp [heartbeatCallback, h]
  · intro code
    cases h : info "/heartbeat" payload <;> simp [heartbeatCallback, h]
  · cases h : info "/heartbeat" payload <;> simp [heartbeatCallback, h]
  · by_cases h : status.mqttClient = none <;> simp [startHeartbeat, h]
  · intro h
    simp [startHeartbeat, h]
  · intro callback h
    by_cases hc : status.mqttClient = none
    · simp [startHeartbeat, hc] at h
    · simp [startHeartbeat, hc] at h
      exact h.symm

/-- Witness of C13: a status without cloud client starts no heartbeat, one with
a client does; a publish that fails gives the error. -/
theorem heartbeat_callback_witness :
    startHeartbeat emptyStatus (fun _ _ => false) = none
    ∧ (heartbeatCallback (fun _ _ => false) "beat").1 = .returned (some "Publish failed")
    ∧ (startHeartbeat runningStatus (fun _ _ => true)).isSome = true :=
  have h := heartbeat_callback (fun _ _ => false) "beat" emptyStatus
  ⟨h.2.2.2.2.2.2.1 rfl, h.1.mpr rfl,
    (heartbeat_callback (fun _ _ => true) "beat" runningStatus).2.2.2.2.2.1.mpr (by decide)⟩

/-! ## Hot-plug watcher: the sketch in the slot -/

/-- When the store holds a record under the key `sketchLoadedThroughUSB`, a
creation event applies STOP to it right after the settle delay and before the
rename. -/
theorem stop_before_move_when_key_is_file_name (os : OS) (folderDest : String)
    (status : Status) (event : Event) (sketch : SketchStatus)
    (hcreate : event.Op &&& fsnotifyCreate = fsnotifyCreate)
    (hslot : mapGet status.Sketches "sketchLoadedThroughUSB" = some sketch) :
    [Op.LogEvent event, Op.Sleep (2 * Second), Op.applyAction sketch "STOP",
        Op.Rename event.Name (os.Join folderDest "sketchLoadedThroughUSB")]
      <+: (handleEvent os folderDest status event).2 := by
  have hstop : (stopExisting os status).2 = [Op.applyAction sketch "STOP"] := by
    simp [stopExisting, hslot]
  obtain ⟨tail, htail⟩ : ∃ tail,
      (moveSketch os event.Name (os.Join folderDest "sketchLoadedThroughUSB")).2
        = Op.Rename event.Name (os.Join folderDest "sketchLoadedThroughUSB") :: tail := by
    unfold moveSketch
    split
    · exact ⟨[], rfl⟩
    · exact ⟨_, rfl⟩
  unfold handleEvent
  rw [if_pos hcreate]
  dsimp only
  split
  · rw [hstop, htail]
    exact ⟨tail, by simp⟩
  · split
    · rw [hstop, htail]
      exact ⟨_, by simp; rfl⟩
    · rw [hstop, htail]
      exact ⟨_, by simp; rfl⟩

/-- C11: on a device whose name→identifier lookup knows the file
`sketchLoadedThroughUSB`, the first dropped file is registered under the
looked-up identifier and runs; the creation event for the second file then
moves it into the slot and starts it without any STOP of the first, whose
record is replaced. Where the lookup fails, the same two events do stop the
first sketch before the second rename. -/
theorem slot_occupant_under_looked_up_id_is_not_stopped :
    (handleEvent supervisedLookupOS "/sketches" emptyStatus
        ⟨"/tmp/sketches/foo.bin", 1⟩).1.Sketches
      = [("id-sketchLoadedThroughUSB",
          ⟨"sketchLoadedThroughUSB", "id-sketchLoadedThroughUSB", 4242, "RUNNING"⟩)]
    ∧ (handleEvent supervisedLookupOS "/sketches"
        (handleEvent supervisedLookupOS "/sketches" emptyStatus
          ⟨"/tmp/sketches/foo.bin", 1⟩).1 ⟨"/tmp/sketches/bar.bin", 1⟩).2
      = [Op.LogEvent ⟨"/tmp/sketches/bar.bin", 1⟩, Op.Sleep 2000000000,
          Op.Rename "/tmp/sketches/bar.bin" "/sketches/sketchLoadedThroughUSB",
          Op.Chmod "/sketches/sketchLoadedThroughUSB" 448,
          Op.Println "Moving new sketch to sketches folder",
          Op.Stat "/sketches/sketchLoadedThroughUSB",
          Op.getSketchIDFromDB "sketchLoadedThroughUSB",
          Op.Println
            "Getting sketch from id-sketchLoadedThroughUSB sketchLoadedThroughUSB",
          Op.Set "id-sketchLoadedThroughUSB"
            ⟨"sketchLoadedThroughUSB", "id-sketchLoadedThroughUSB", 0, "STOPPED"⟩,
          Op.Publish,
          Op.applyAction
            ⟨"sketchLoadedThroughUSB", "id-sketchLoadedThroughUSB", 0, "STOPPED"⟩ "START"]
    ∧ (watcherLoop "/sketches" emptyStatus
        [(supervisedLookupOS, .event ⟨"/tmp/sketches/foo.bin", 1⟩),
          (supervisedLookupOS, .event ⟨"/tmp/sketches/bar.bin", 1⟩)]).2.filter Op.isStop = []
    ∧ (watcherLoop "/sketches" emptyStatus
        [(supervisedOS, .event ⟨"/tmp/sketches/foo.bin", 1⟩),
          (supervisedOS, .event ⟨"/tmp/sketches/bar.bin", 1⟩)]).2.filter
        (fun op => op.isStop || op.isMoveOf "/tmp/sketches/bar.bin"
          "/sketches/sketchLoadedThroughUSB")
      = [Op.applyAction
            ⟨"sketchLoadedThroughUSB", "sketchLoadedThroughUSB", 4242, "RUNNING"⟩ "STOP",
          Op.Rename "/tmp/sketches/bar.bin" "/sketches/sketchLoadedThroughUSB"] := by
  refine ⟨by decide, by decide, by decide, by decide⟩

/-! ## Hot-plug watcher: failing steps and the dropped file -/

theorem mapGet_mapSet_ne {V : Type} (m : List (String × V)) (key k : String) (value : V)
    (hk : k ≠ key) : mapGet (mapSet m key value) k = mapGet m k := by
  induction m with
  | nil => simp [mapSet, mapGet, hk.symm]
  | cons e rest ih =>
    obtain ⟨k2, v2⟩ := e
    by_cases h2 : k2 = key
    · subst h2
      simp [mapSet, mapGet, hk.symm]
    · by_cases h3 : k2 = k
      · subst h3
        simp [mapSet, mapGet, h2]
      · simp [mapSet, mapGet, h2, h3, ih]

theorem mapGet_removeFile_self (files : Files) (path : String) :
    mapGet (removeFile files path) path = none := by
  induction files with
  | nil => simp [removeFile, mapGet]
  | cons e rest ih =>
    obtain ⟨k, v⟩ := e
    by_cases h : k = path
    · simpa [removeFile, h] using ih
    · simp only [removeFile, List.filter_cons, bne_iff_ne, ne_eq, h, not_false_eq_true,
        decide_True, if_true, mapGet, if_false]
      simpa [removeFile] using ih

theorem mapGet_removeFile_ne (files : Files) (path q : String) (hq : q ≠ path) :
    mapGet (removeFile files path) q = mapGet files q := by
  induction files with
  | nil => simp [removeFile, mapGet]
  | cons e rest ih =>
    obtain ⟨k, v⟩ := e
    by_cases h : k = path
    · subst h
      have hkq : ¬ k = q := fun hh => hq hh.symm
      simpa [removeFile, mapGet, hkq] using ih
    · by_cases h3 : k = q
      · subst h3
        simp [removeFile, h, mapGet]
      · simp only [removeFile, List.filter_cons, bne_iff_ne, ne_eq, h, not_false_eq_true,
          decide_True, if_true, mapGet, h3, if_false]
        simpa [removeFile] using ih

theorem runOps_append (os : OS) (files : Files) (a b : List Op) :
    runOps os files (a ++ b) = runOps os (runOps os files a) b := by
  simp [runOps, List.foldl_append]

theorem runOps_stopExisting (os : OS) (status : Status) (files : Files) :
    runOps os files (stopExisting os status).2 = files := by
  unfold stopExisting
  split <;> simp [runOps, Op.apply]

theorem copyFileAndRemoveOriginal_error (os : OS) (src dst : String) (files : Files)
    (err : String) (h : (copyFileAndRemoveOriginal os src dst).1 = some err) :
    runOps os files (copyFileAndRemoveOriginal os src dst).2 = files
    ∧ (copyFileAndRemoveOriginal os src dst).2.countP
        (fun op => op == Op.Remove src) = 0 := by
  unfold copyFileAndRemoveOriginal at h ⊢
  split
  · simp [runOps, Op.apply]
  · next data hread =>
    rw [hread] at h
    dsimp only at h ⊢
    split
    · next werr hwrite => simp [runOps, Op.apply, hwrite]
    · next hwrite =>
      rw [hwrite] at h
      simp at h

theorem moveSketch_error (os : OS) (oldpath newpath : String) (files : Files) (err : String)
    (h : (moveSketch os oldpath newpath).1 = some err) :
    runOps os files (moveSketch os oldpath newpath).2 = files := by
  unfold moveSketch at h ⊢
  split
  · next hren =>
    rw [hren] at h
    simp at h
  · next rerr hren =>
    rw [hren] at h
    dsimp only at h ⊢
    have hc := (copyFileAndRemoveOriginal_error os oldpath newpath files err h).1
    have hr : Op.apply os files (Op.Rename oldpath newpath) = files := by
      simp [Op.apply, hren]
    simp only [runOps, List.foldl_cons, hr]
    exact hc

/-- The contract of copyFileAndRemoveOriginal where it holds: an error leaves
every file as it was and nothing is removed; a nil result after a remove that
succeeded leaves the bytes read at the destination and no source. -/
theorem copyFileAndRemoveOriginal_when_remove_succeeds (os : OS) (src dst : String)
    (files : Files) :
    (∀ err, (copyFileAndRemoveOriginal os src dst).1 = some err →
      runOps os files (copyFileAndRemoveOriginal os src dst).2 = files)
    ∧ (∀ data, os.ReadFile src = .ok data → os.WriteFile dst data 0o644 = none →
        os.Remove src = none → src ≠ dst →
        (copyFileAndRemoveOriginal os src dst).1 = none
        ∧ mapGet (runOps os files (copyFileAndRemoveOriginal os src dst).2) dst = some data
        ∧ mapGet (runOps os files (copyFileAndRemoveOriginal os src dst).2) src = none) := by
  refine ⟨fun err h => (copyFileAndRemoveOriginal_error os src dst files err h).1, ?_⟩
  intro data hread hwrite hremove hne
  simp only [copyFileAndRemoveOriginal, hread, hwrite, runOps, List.foldl_cons, List.foldl_nil,
    Op.apply, hremove, true_and]
  exact ⟨by rw [mapGet_removeFile_ne _ _ _ hne.symm, mapGet_mapSet_self],
    mapGet_removeFile_self _ _⟩

/-- C16: in a directory where the file can be read and copied but not removed,
copyFileAndRemoveOriginal returns nil although os.Remove failed: the copy is
at the destination and the source file still exists with its bytes. -/
theorem copy_returns_nil_with_source_in_place :
    stickyOS.Remove "/tmp/sketches/foo.bin" = some "operation not permitted"
    ∧ copyFileAndRemoveOriginal stickyOS "/tmp/sketches/foo.bin"
        "/sketches/sketchLoadedThroughUSB"
      = (none, [Op.ReadFile "/tmp/sketches/foo.bin",
          Op.WriteFile "/sketches/sketchLoadedThroughUSB" [1, 2, 3] 420,
          Op.Remove "/tmp/sketches/foo.bin"])
    ∧ runOps stickyOS droppedFiles
        (copyFileAndRemoveOriginal stickyOS "/tmp/sketches/foo.bin"
          "/sketches/sketchLoadedThroughUSB").2
      = [("/tmp/sketches/foo.bin", [1, 2, 3]), ("/sketches/sketchLoadedThroughUSB", [1, 2, 3])]
    ∧ mapGet (runOps stickyOS droppedFiles
        (copyFileAndRemoveOriginal stickyOS "/tmp/sketches/foo.bin"
          "/sketches/sketchLoadedThroughUSB").2) "/tmp/sketches/foo.bin" = some [1, 2, 3] := by
  refine ⟨rfl, by decide, by decide, by decide⟩

/-- C12, as stated, fails: a STOP that returns an error does not abort the
sequence, the file is still moved, registered and started; and when the stat
fails after a rename that succeeded, the dropped file is no longer at its
original path. -/
theorem failed_stop_or_stat_is_no_clean_abort :
    (stopFailsOS.applyAction
        ⟨"sketchLoadedThroughUSB", "sketchLoadedThroughUSB", 4242, "RUNNING"⟩ "STOP"
        runningStatus).2 = some "no such process"
    ∧ (handleEvent stopFailsOS "/sketches" runningStatus ⟨"/tmp/sketches/foo.bin", 1⟩).2
      = [Op.LogEvent ⟨"/tmp/sketches/foo.bin", 1⟩, Op.Sleep 2000000000,
          Op.applyAction
            ⟨"sketchLoadedThroughUSB", "sketchLoadedThroughUSB", 4242, "RUNNING"⟩ "STOP",
          Op.Rename "/tmp/sketches/foo.bin" "/sketches/sketchLoadedThroughUSB",
          Op.Chmod "/sketches/sketchLoadedThroughUSB" 448,
          Op.Println "Moving new sketch to sketches folder",
          Op.Stat "/sketches/sketchLoadedThroughUSB",
          Op.getSketchIDFromDB "sketchLoadedThroughUSB",
          Op.Println "Getting sketch from sketchLoadedThroughUSB sketchLoadedThroughUSB",
          Op.Set "sketchLoadedThroughUSB"
            ⟨"sketchLoadedThroughUSB", "sketchLoadedThroughUSB", 0, "STOPPED"⟩,
          Op.Publish,
          Op.applyAction ⟨"sketchLoadedThroughUSB", "sketchLoadedThroughUSB", 0, "STOPPED"⟩
            "START"]
    ∧ statFailsOS.Stat "/sketches/sketchLoadedThroughUSB" = .error "no such file or directory"
    ∧ mapGet droppedFiles "/tmp/sketches/foo.bin" = some [1, 2, 3]
    ∧ mapGet
        (runOps statFailsOS droppedFiles
          (handleEvent statFailsOS "/sketches" emptyStatus ⟨"/tmp/sketches/foo.bin", 1⟩).2)
        "/tmp/sketches/foo.bin" = none := by
  refine ⟨by decide, by decide, rfl, by decide, by decide⟩

theorem stop_and_move_ops_are_not_after_move (os : OS) (status : Status)
    (oldpath newpath : String) :
    ((stopExisting os status).2 ++ (moveSketch os oldpath newpath).2).countP Op.isAfterMove = 0
    ∧ ((stopExisting os status).2 ++ (moveSketch os oldpath newpath).2).countP
        Op.isRegisterOrStart = 0 := by
  have hstop := stopExisting_ops os status
  have hmove := (moveSketch_ops os oldpath newpath).2
  have key : ∀ op ∈ (stopExisting os status).2 ++ (moveSketch os oldpath newpath).2,
      op.isAfterMove = false ∧ op.isRegisterOrStart = false := by
    intro op hop
    rcases List.mem_append.mp hop with h | h
    · have := hstop op h
      cases op <;> simp_all [Op.isStop, Op.isAfterMove, Op.isRegisterOrStart]
    · have := hmove op h
      cases op <;> simp_all [Op.isMoveOf, Op.isAfterMove, Op.isRegisterOrStart]
  constructor
  · rw [List.countP_eq_zero]
    intro op hop
    simp [(key op hop).1]
  · rw [List.countP_eq_zero]
    intro op hop
    simp [(key op hop).2]

/-- C12, amended: for a creation event, when the rename and its fallback copy
both fail, none of the later steps (chmod, stat, registration, START) is
performed and every file, the dropped one included, is as it was; when the
stat fails, the registration and the START are not performed; and in every
case the watcher loop goes on with the next message. -/
theorem failed_move_or_stat_aborts (os : OS) (folderDest : String) (status : Status)
    (event : Event) (files : Files) (rest : List (OS × WatcherMsg))
    (hcreate : event.Op &&& fsnotifyCreate = fsnotifyCreate) :
    (∀ err, (moveSketch os event.Name (os.Join folderDest "sketchLoadedThroughUSB")).1
        = some err →
      (handleEvent os folderDest status event).2
        = [Op.LogEvent event, Op.Sleep (2 * Second)] ++ (stopExisting os status).2
          ++ (moveSketch os event.Name (os.Join folderDest "sketchLoadedThroughUSB")).2
      ∧ (handleEvent os folderDest status event).2.countP Op.isAfterMove = 0
      ∧ runOps os files (handleEvent os folderDest status event).2 = files
      ∧ mapGet (runOps os files (handleEvent os folderDest status event).2) event.Name
          = mapGet files event.Name)
    ∧ (∀ err, (moveSketch os event.Name (os.Join folderDest "sketchLoadedThroughUSB")).1
        = none →
      os.Stat (os.Join folderDest "sketchLoadedThroughUSB") = .error err →
      (handleEvent os folderDest status event).2
        = [Op.LogEvent event, Op.Sleep (2 * Second)] ++ (stopExisting os status).2
          ++ (moveSketch os event.Name (os.Join folderDest "sketchLoadedThroughUSB")).2
          ++ [Op.Chmod (os.Join folderDest "sketchLoadedThroughUSB") 0o700,
              Op.Println "Moving new sketch to sketches folder",
              Op.Stat (os.Join folderDest "sketchLoadedThroughUSB"),
              Op.Println ("Got error:" ++ err)]
      ∧ (handleEvent os folderDest status event).2.countP Op.isRegisterOrStart = 0)
    ∧ (watcherLoop folderDest status ((os, .event event) :: rest)).2
        = (handleEvent os folderDest status event).2
          ++ (watcherLoop folderDest (handleEvent os folderDest status event).1 rest).2 := by
  have hcount := stop_and_move_ops_are_not_after_move os status event.Name
    (os.Join folderDest "sketchLoadedThroughUSB")
  refine ⟨?_, ?_, ?_⟩
  · intro err hmove
    have htrace : (handleEvent os folderDest status event).2
        = [Op.LogEvent event, Op.Sleep (2 * Second)] ++ (stopExisting os status).2
          ++ (moveSketch os event.Name (os.Join folderDest "sketchLoadedThroughUSB")).2 := by
      unfold handleEvent
      rw [if_pos hcreate]
      simp only [hmove]
    have hfiles : runOps os files (handleEvent os folderDest status event).2 = files := by
      rw [htrace, runOps_append, runOps_append, runOps_stopExisting,
        moveSketch_error os _ _ _ err hmove]
      simp [runOps, Op.apply]
    refine ⟨htrace, ?_, hfiles, by rw [hfiles]⟩
    rw [htrace, List.append_assoc, List.countP_append, hcount.1]
    simp [Op.isAfterMove]
  · intro err hmove hstat
    have htrace : (handleEvent os folderDest status event).2
        = [Op.LogEvent event, Op.Sleep (2 * Second)] ++ (stopExisting os status).2
          ++ (moveSketch os event.Name (os.Join folderDest "sketchLoadedThroughUSB")).2
          ++ [Op.Chmod (os.Join folderDest "sketchLoadedThroughUSB") 0o700,
              Op.Println "Moving new sketch to sketches folder",
              Op.Stat (os.Join folderDest "sketchLoadedThroughUSB"),
              Op.Println ("Got error:" ++ err)] := by
      unfold handleEvent
      rw [if_pos hcreate]
      simp only [hmove, hstat]
    refine ⟨htrace, ?_⟩
    rw [htrace, List.append_assoc, List.append_assoc, List.countP_append,
      ← List.append_assoc, List.countP_append, hcount.2]
    simp [Op.isRegisterOrStart]
  · simp [watcherLoop]

/-- Witness of C12: a dropped file that can neither be renamed nor read stays
where it is, and the next event is handled. -/
theorem failed_move_or_stat_aborts_witness :
    (moveSketch unreadableOS "/tmp/sketches/foo.bin"
        (unreadableOS.Join "/sketches" "sketchLoadedThroughUSB")).1 = some "permission denied"
    ∧ mapGet
        (runOps unreadableOS droppedFiles
          (handleEvent unreadableOS "/sketches" emptyStatus ⟨"/tmp/sketches/foo.bin", 1⟩).2)
        "/tmp/sketches/foo.bin" = mapGet droppedFiles "/tmp/sketches/foo.bin"
    ∧ (watcherLoop "/sketches" emptyStatus
        [(unreadableOS, .event ⟨"/tmp/sketches/foo.bin", 1⟩),
          (okOS, .event ⟨"/tmp/sketches/bar.bin", 1⟩)]).2
      = (handleEvent unreadableOS "/sketches" emptyStatus ⟨"/tmp/sketches/foo.bin", 1⟩).2
        ++ (watcherLoop "/sketches"
            (handleEvent unreadableOS "/sketches" emptyStatus
              ⟨"/tmp/sketches/foo.bin", 1⟩).1
            [(okOS, .event ⟨"/tmp/sketches/bar.bin", 1⟩)]).2 :=
  have h := failed_move_or_stat_aborts unreadableOS "/sketches" emptyStatus
    ⟨"/tmp/sketches/foo.bin", 1⟩ droppedFiles [(okOS, .event ⟨"/tmp/sketches/bar.bin", 1⟩)]
    (by decide)
  ⟨rfl, (h.1 "permission denied" rfl).2.2.2, h.2.2⟩

/-! ## Direct accesses to the shared status -/

/-- C15: the watcher and autospawnSketchIfMatchesName read the sketch map
`status.Sketches` in place, not through a method of the status, while
addFileToSketchDB goes through `Set` and `Publish`. -/
theorem sketch_map_is_read_directly :
    handleEvent.accesses okOS "/sketches" runningStatus ⟨"/tmp/sketches/foo.bin", 1⟩
      = [Access.fieldRead "Sketches", Access.passedTo "applyAction",
          Access.passedTo "addFileToSketchDB", Access.method "Set", Access.method "Publish",
          Access.passedTo "applyAction"]
    ∧ autospawnSketchIfMatchesName.accesses "sketchLoadedThroughUSB" runningStatus
      = [Access.fieldRead "Sketches", Access.fieldRead "Sketches",
          Access.passedTo "applyAction"]
    ∧ (handleEvent.accesses okOS "/sketches" runningStatus
        ⟨"/tmp/sketches/foo.bin", 1⟩).all Access.throughInterface = false
    ∧ (autospawnSketchIfMatchesName.accesses "sketchLoadedThroughUSB"
        runningStatus).all Access.throughInterface = false
    ∧ addFileToSketchDB.accesses.all Access.throughInterface = true := by
  refine ⟨by decide, by decide, by decide, by decide, by decide⟩

theorem every_creation_event_reads_sketch_map_directly (os : OS) (folderDest : String)
    (status : Status) (event : Event) (name : String)
    (hcreate : event.Op &&& fsnotifyCreate = fsnotifyCreate) :
    Access.fieldRead "Sketches" ∈ handleEvent.accesses os folderDest status event
    ∧ Access.fieldRead "Sketches" ∈ autospawnSketchIfMatchesName.accesses name status := by
  constructor
  · unfold handleEvent.accesses
    rw [if_pos hcreate]
    dsimp only
    repeat' split
    all_goals simp
  · unfold autospawnSketchIfMatchesName.accesses
    split <;> simp

end ArduinoConnector
